import Mathlib

/-!
# Verification of the flutter_onnxruntime tensor registry and conversion engine

This development shallowly embeds the tensor/Session handle registry and the
element-type conversion engine of the `flutter_onnxruntime` plugin and proves
or refutes the frozen specification claims about them.

Conventions of the embedding:

* C++ `uint16_t`/`uint32_t` bit patterns are `Nat` with explicit `% 2^w`
  reductions wherever the C code's unsigned arithmetic can wrap.
* Bit-field extraction `(b & mask) >> k` is written with `/` and `%`
  (`b / 2^k % 2^width`), and bitwise OR of provably disjoint fields is
  written `+`; each definition carries the original C expression in comments.
* C++ `float`/`double` *values* are modelled as exact rationals (`ℚ`).  The
  IEEE-754 semantics of a binary32 / binary16 bit pattern is given by the
  valuation functions `float32Val` / `halfVal`.
* Registries (`std::unordered_map` / `std::map` guarded by a mutex) are
  association lists with unique keys; operations are sequential, matching the
  mutex discipline (every public operation holds the lock for its whole body).
* Fallible C++ code (paths that `throw` or return an error string) is
  `Except String`.
-/

set_option maxHeartbeats 1000000

namespace FlutterOnnx

/-! ## Association-list maps

`std::unordered_map<std::string, V>` is modelled as a list of key/value pairs
whose keys are kept unique by construction: insertion (`operator[]` followed
by assignment) removes any previous binding, and `erase` filters the key out.
-/

/-- Lookup in an association-list map (`map.find(k)` / `map[k]` read). -/
def aget {V : Type} (m : List (String × V)) (k : String) : Option V :=
  (m.find? (fun p => p.1 == k)).map (·.2)

/-- Insertion `map[k] = v`: any previous binding of `k` is replaced. -/
def aset {V : Type} (m : List (String × V)) (k : String) (v : V) :
    List (String × V) :=
  (k, v) :: m.filter (fun p => p.1 != k)

/-- Deletion `map.erase(k)`. Erasing an absent key is a no-op. -/
def aerase {V : Type} (m : List (String × V)) (k : String) :
    List (String × V) :=
  m.filter (fun p => p.1 != k)

/-! ## Float16Utils (src/linux/float16_utils.cc)

The two functions do pure bit manipulation after `memcpy`ing the float into a
`uint32_t`; they are embedded on bit patterns (`Nat`).  Field extraction
`(b & mask) >> k` is written `b / 2^k % 2^width`, and ORs of disjoint bit
fields (checked below: the summands never share a set bit) are written `+`.
Constants: `FLOAT32_EXPONENT_BIAS = 127`, `FLOAT16_EXPONENT_BIAS = 15`,
`FLOAT16_SIGN_MASK = 0x8000`, `FLOAT16_EXPONENT_MASK = 0x7C00`,
`FLOAT16_MANTISSA_MASK = 0x3FF`.
-/

namespace Float16Utils

/-- Embeds `Float16Utils::floatToFloat16` on the 32-bit pattern of the input float.
`sign = (b >> 31) & 1`; `exponent = ((b >> 23) & 0xFF) - 127 + 15` (a C `int`,
hence `ℤ`); `mantissa = b & 0x7FFFFF`.  Returns `sign << 15` when
`exponent <= 0`; `(sign << 15) | 0x7C00` (infinity) or
`(sign << 15) | 0x7C00 | 0x200` (NaN) when `exponent >= 31`; otherwise
`(sign << 15) | (exponent << 10) | (mantissa >> 13)`. -/
def floatToFloat16 (b : Nat) : Nat :=
  let sign : Nat := b / 2 ^ 31 % 2
  let exponent : Int := (b / 2 ^ 23 % 2 ^ 8 : Nat) - 127 + 15
  let mantissa : Nat := b % 2 ^ 23
  if exponent ≤ 0 then
    sign * 2 ^ 15
  else if 31 ≤ exponent then
    if mantissa = 0 then
      sign * 2 ^ 15 + 0x7C00
    else
      sign * 2 ^ 15 + 0x7C00 + 0x200
  else
    sign * 2 ^ 15 + exponent.toNat * 2 ^ 10 + mantissa / 2 ^ 13

/-- The denormal renormalization loop of `float16ToFloat`:
`while ((m & 0x400) == 0) { m = m << 1; e++; }` starting from `e = 1`.
The C loop runs at most 10 times for any nonzero 10-bit mantissa (callers
guard `mantissa != 0`); the fuel of 16 is never exhausted on those inputs. -/
def normLoop : Nat → Nat → Nat → Nat × Nat
  | 0, m, e => (m, e)
  | fuel + 1, m, e =>
      if m / 2 ^ 10 % 2 = 0 then normLoop fuel (m * 2) (e + 1) else (m, e)

/-- Embeds `Float16Utils::float16ToFloat` on the 16-bit pattern, returning the 32-bit
pattern.  `sign = (b & 0x8000) << 16`; `exponent = (b & 0x7C00) >> 10`;
`mantissa = b & 0x3FF`.  The denormal branch computes
`normalizedExponent = exponent - e + 1` in `uint32_t` arithmetic (wrapping,
`exponent = 0` there) and assembles
`sign | ((normalizedExponent + 127 - 15) << 23) | ((m & 0x3FF) << 13)`;
the loop guarantees the exponent field stays below 2^8, so the fields are
disjoint and the ORs are sums. -/
def float16ToFloat (b : Nat) : Nat :=
  let sign : Nat := b / 2 ^ 15 % 2 * 2 ^ 31
  let exponent : Nat := b / 2 ^ 10 % 2 ^ 5
  let mantissa : Nat := b % 2 ^ 10
  if exponent = 0 then
    if mantissa = 0 then
      sign
    else
      let me := normLoop 16 mantissa 1
      let normalizedExponent : Nat :=
        ((1 - (me.2 : Int)) % (2 ^ 32 : Int)).toNat
      sign + (normalizedExponent + 112) % 2 ^ 32 % 2 ^ 9 * 2 ^ 23
        + me.1 % 2 ^ 10 * 2 ^ 13
  else if exponent = 31 then
    if mantissa = 0 then
      sign + 0x7F800000
    else
      sign + 0x7FC00000
  else
    sign + (exponent + 112) * 2 ^ 23 + mantissa * 2 ^ 13

end Float16Utils

/-! ## IEEE-754 valuations of bit patterns

Spec-side semantics used to state value-level properties of the bit
manipulating code: the exact rational value of a finite binary32 / binary16
pattern (non-finite patterns — exponent field all ones — are mapped to 0;
no stated theorem relies on them). -/

/-- Exact value of a finite IEEE-754 binary32 bit pattern. -/
def float32Val (b : Nat) : ℚ :=
  let s : Nat := b / 2 ^ 31 % 2
  let e : Nat := b / 2 ^ 23 % 2 ^ 8
  let m : Nat := b % 2 ^ 23
  let mag : ℚ :=
    if e = 0 then (m : ℚ) / 2 ^ 23 * (2 : ℚ) ^ (-126 : ℤ)
    else if e = 255 then 0
    else (1 + (m : ℚ) / 2 ^ 23) * (2 : ℚ) ^ ((e : ℤ) - 127)
  (if s = 1 then -1 else 1) * mag

/-- Exact value of a finite IEEE-754 binary16 (half-precision) bit pattern. -/
def halfVal (b : Nat) : ℚ :=
  let s : Nat := b / 2 ^ 15 % 2
  let e : Nat := b / 2 ^ 10 % 2 ^ 5
  let m : Nat := b % 2 ^ 10
  let mag : ℚ :=
    if e = 0 then (m : ℚ) / 2 ^ 10 * (2 : ℚ) ^ (-14 : ℤ)
    else if e = 31 then 0
    else (1 + (m : ℚ) / 2 ^ 10) * (2 : ℚ) ^ ((e : ℤ) - 15)
  (if s = 1 then -1 else 1) * mag

/-! ## The tensor data model

`Ort::Value` tensors are type-tagged contiguous buffers plus a shape.  The
payload is modelled as `List ℚ`: float cells carry their exact value, integer
cells an integer-valued rational, `bool` cells 0/1, and (only inside
tensors tagged `float16`) cells carry the raw 16-bit pattern as a natural.
The tag selects the interpretation at every access point, exactly as the
type-erased `Ort::Value` plus `GetTensorData<T>` does in the source. -/

/-- The `ONNXTensorElementDataType` enumeration (the cases named in the sources). -/
inductive OnnxElementType
  | float | uint8 | int8 | uint16 | int16 | int32 | int64
  | string | bool | float16 | double | uint32 | uint64
  | complex64 | complex128 | bfloat16
  deriving DecidableEq, Repr

/-- Embeds `TensorManager::get_element_type_string` (windows) and the identical
`switch` in the linux `TensorManager::storeTensor`. -/
def get_element_type_string : OnnxElementType → String
  | .float => "float32"
  | .uint8 => "uint8"
  | .int8 => "int8"
  | .uint16 => "uint16"
  | .int16 => "int16"
  | .int32 => "int32"
  | .int64 => "int64"
  | .string => "string"
  | .bool => "bool"
  | .float16 => "float16"
  | .double => "double"
  | .uint32 => "uint32"
  | .uint64 => "uint64"
  | .complex64 => "complex64"
  | .complex128 => "complex128"
  | .bfloat16 => "bfloat16"

/-- An `Ort::Value` tensor: element type, contiguous payload, shape. -/
structure OrtVal where
  etype : OnnxElementType
  data : List ℚ
  shape : List Int
  deriving DecidableEq, Repr

/-! ## Element-wise conversions

Scalar maps applied per element by the conversion engine.  `static_cast`
from a float value to an integer type truncates toward zero;
`static_cast` between integer types of the same or wider width is exact,
and int-to-float is modelled as exact (the spec accepts the precision loss of
large `int64` magnitudes; no claim depends on it). -/

/-- Truncation toward zero, the C `static_cast<intN_t>(float)`: the
numerator T-divided (rounding toward zero) by the denominator.
`truncQ_eq_floor_ceil` below restates it as floor on nonnegatives and
ceiling on negatives. -/
def truncQ (q : ℚ) : Int := q.num.tdiv (q.den : Int)

/-- Windows `convertFloat32To` int32/int64 cell:
`static_cast<T>(data[i] + (data[i] >= 0 ? 0.5f : -0.5f))`. -/
def winF32ToInt (q : ℚ) : Int :=
  truncQ (q + if 0 ≤ q then (1 : ℚ) / 2 else -(1 : ℚ) / 2)

/-- Windows `convertFloat32To` uint8 cell:
`float val = data[i] < 0 ? 0 : (data[i] > 255 ? 255 : data[i] + 0.5f);`
then `static_cast<uint8_t>(val)`. -/
def winF32ToU8 (q : ℚ) : Int :=
  if q < 0 then 0 else if 255 < q then 255 else truncQ (q + (1 : ℚ) / 2)

/-- The `data[i] != 0` conversions to bool, stored as 0/1. -/
def cellToBool (q : ℚ) : ℚ := if q = 0 then 0 else 1

/-- Windows `convertInt32To` uint8 cell:
`int32_t val = data[i] < 0 ? 0 : (data[i] > 255 ? 255 : data[i]);`. -/
def winI32ToU8 (x : ℚ) : ℚ := if x < 0 then 0 else if 255 < x then 255 else x

/-- Windows `convertInt64To` int32 cell:
`if (val > INT32_MAX) val = INT32_MAX; if (val < INT32_MIN) val = INT32_MIN;`. -/
def winI64ToI32 (x : ℚ) : ℚ :=
  let v1 : ℚ := if 2147483647 < x then 2147483647 else x
  if v1 < -2147483648 then -2147483648 else v1

/-- Windows `convertInt64To` uint8 cell:
`int64_t val = data[i] < 0 ? 0 : (data[i] > 255 ? 255 : data[i]);`. -/
def winI64ToU8 (x : ℚ) : ℚ := if x < 0 then 0 else if 255 < x then 255 else x

/-- The `data[i] ? 1 : 0` conversion for bool sources (cells are 0/1). -/
def boolCellToNum (x : ℚ) : ℚ := if x = 0 then 0 else 1

namespace WinTensorManager

/-! ## TensorManager (src/windows/src/tensor_manager.cc)

Four maps guarded by `tensor_mutex_`; every public operation locks for its
whole body, so operations are sequential state transformers.
`generateTensorId` draws 16 random hex digits; the embedding takes each
generated id as an explicit `newId` argument (the random source is an
oracle), so freshness is a hypothesis where a theorem needs it. -/

structure State where
  tensors : List (String × OrtVal)
  tensor_types : List (String × String)
  tensor_shapes : List (String × List Int)
  tensor_data_buffers : List (String × List ℚ)
  deriving DecidableEq, Repr

/-- The state after the constructor: all four maps empty. -/
def initState : State := ⟨[], [], [], []⟩

/-- Common body of the five `create*Tensor` functions, which differ only in
the element type and its tag string: copy the payload into
`tensor_data_buffers_`, wrap it in an `Ort::Value` via `createOrtValue`
(modelled as building the tagged tensor over the buffer), and record the
tensor, its type string, and its shape. -/
def createTensorCore (ty : OnnxElementType) (tyStr : String) (data : List ℚ)
    (shape : List Int) (newId : String) (s : State) : String × State :=
  (newId,
    { tensors := aset s.tensors newId ⟨ty, data, shape⟩
      tensor_types := aset s.tensor_types newId tyStr
      tensor_shapes := aset s.tensor_shapes newId shape
      tensor_data_buffers := aset s.tensor_data_buffers newId data })

/-- Embeds `TensorManager::createFloat32Tensor`. -/
def createFloat32Tensor : List ℚ → List Int → String → State → String × State :=
  createTensorCore .float "float32"

/-- Embeds `TensorManager::createInt32Tensor`. -/
def createInt32Tensor : List ℚ → List Int → String → State → String × State :=
  createTensorCore .int32 "int32"

/-- Embeds `TensorManager::createInt64Tensor`. -/
def createInt64Tensor : List ℚ → List Int → String → State → String × State :=
  createTensorCore .int64 "int64"

/-- Embeds `TensorManager::createUint8Tensor`. -/
def createUint8Tensor : List ℚ → List Int → String → State → String × State :=
  createTensorCore .uint8 "uint8"

/-- Embeds `TensorManager::createBoolTensor`. -/
def createBoolTensor : List ℚ → List Int → String → State → String × State :=
  createTensorCore .bool "bool"

/-- Embeds `TensorManager::getTensor`: map lookup, `nullptr` is `none`. -/
def getTensor (s : State) (tensor_id : String) : Option OrtVal :=
  aget s.tensors tensor_id

/-- Embeds `TensorManager::storeTensor`: store the moved-in tensor and derive its
type tag and shape from the tensor itself.  `tensor_data_buffers_` is not
touched by the source. -/
def storeTensor (tensor_id : String) (t : OrtVal) (s : State) : State :=
  { s with
    tensors := aset s.tensors tensor_id t
    tensor_shapes := aset s.tensor_shapes tensor_id t.shape
    tensor_types :=
      aset s.tensor_types tensor_id (get_element_type_string t.etype) }

/-- Embeds `TensorManager::releaseTensor`: `false` when the tensor map has no entry;
otherwise erase the entry from all four maps and return `true`. -/
def releaseTensor (tensor_id : String) (s : State) : Bool × State :=
  match aget s.tensors tensor_id with
  | none => (false, s)
  | some _ =>
      (true,
        { tensors := aerase s.tensors tensor_id
          tensor_types := aerase s.tensor_types tensor_id
          tensor_shapes := aerase s.tensor_shapes tensor_id
          tensor_data_buffers := aerase s.tensor_data_buffers tensor_id })

/-- Shared tail of the `convert*To` family: register the freshly converted
payload (buffer, tensor, type tag) and finally the shape, as each branch of
the source does. -/
def registerConverted (ty : OnnxElementType) (tyStr : String)
    (newData : List ℚ) (shape : List Int) (newId : String) (s : State) :
    State :=
  { tensors := aset s.tensors newId ⟨ty, newData, shape⟩
    tensor_types := aset s.tensor_types newId tyStr
    tensor_shapes := aset s.tensor_shapes newId shape
    tensor_data_buffers := aset s.tensor_data_buffers newId newData }

/-- Embeds `TensorManager::convertFloat32To`.  The caller (`convertTensor`) has
already checked that `tensor_id` is present; on the unreachable miss the
embedding fails like the surrounding code would. -/
def convertFloat32To (tensor_id target_type newId : String) (s : State) :
    Except String (String × State) :=
  match aget s.tensors tensor_id with
  | none => .error "Tensor not found"
  | some t =>
    if target_type = "int32" then
      .ok (newId, registerConverted .int32 "int32"
        (t.data.map fun q => ((winF32ToInt q : ℚ))) t.shape newId s)
    else if target_type = "int64" then
      .ok (newId, registerConverted .int64 "int64"
        (t.data.map fun q => ((winF32ToInt q : ℚ))) t.shape newId s)
    else if target_type = "uint8" then
      .ok (newId, registerConverted .uint8 "uint8"
        (t.data.map fun q => ((winF32ToU8 q : ℚ))) t.shape newId s)
    else if target_type = "bool" then
      .ok (newId, registerConverted .bool "bool"
        (t.data.map cellToBool) t.shape newId s)
    else
      .error ("Unsupported type: " ++ target_type)

/-- Embeds `TensorManager::convertInt32To`. -/
def convertInt32To (tensor_id target_type newId : String) (s : State) :
    Except String (String × State) :=
  match aget s.tensors tensor_id with
  | none => .error "Tensor not found"
  | some t =>
    if target_type = "float32" then
      .ok (newId, registerConverted .float "float32" t.data t.shape newId s)
    else if target_type = "int64" then
      .ok (newId, registerConverted .int64 "int64" t.data t.shape newId s)
    else if target_type = "uint8" then
      .ok (newId, registerConverted .uint8 "uint8"
        (t.data.map winI32ToU8) t.shape newId s)
    else if target_type = "bool" then
      .ok (newId, registerConverted .bool "bool"
        (t.data.map cellToBool) t.shape newId s)
    else
      .error ("Unsupported type: " ++ target_type)

/-- Embeds `TensorManager::convertInt64To`. -/
def convertInt64To (tensor_id target_type newId : String) (s : State) :
    Except String (String × State) :=
  match aget s.tensors tensor_id with
  | none => .error "Tensor not found"
  | some t =>
    if target_type = "float32" then
      .ok (newId, registerConverted .float "float32" t.data t.shape newId s)
    else if target_type = "int32" then
      .ok (newId, registerConverted .int32 "int32"
        (t.data.map winI64ToI32) t.shape newId s)
    else if target_type = "uint8" then
      .ok (newId, registerConverted .uint8 "uint8"
        (t.data.map winI64ToU8) t.shape newId s)
    else if target_type = "bool" then
      .ok (newId, registerConverted .bool "bool"
        (t.data.map cellToBool) t.shape newId s)
    else
      .error ("Unsupported type: " ++ target_type)

/-- Embeds `TensorManager::convertUint8To`. -/
def convertUint8To (tensor_id target_type newId : String) (s : State) :
    Except String (String × State) :=
  match aget s.tensors tensor_id with
  | none => .error "Tensor not found"
  | some t =>
    if target_type = "float32" then
      .ok (newId, registerConverted .float "float32" t.data t.shape newId s)
    else if target_type = "int32" then
      .ok (newId, registerConverted .int32 "int32" t.data t.shape newId s)
    else if target_type = "int64" then
      .ok (newId, registerConverted .int64 "int64" t.data t.shape newId s)
    else if target_type = "bool" then
      .ok (newId, registerConverted .bool "bool"
        (t.data.map cellToBool) t.shape newId s)
    else
      .error ("Unsupported type: " ++ target_type)

/-- Embeds `TensorManager::convertBoolTo`. -/
def convertBoolTo (tensor_id target_type newId : String) (s : State) :
    Except String (String × State) :=
  match aget s.tensors tensor_id with
  | none => .error "Tensor not found"
  | some t =>
    if target_type = "float32" then
      .ok (newId, registerConverted .float "float32"
        (t.data.map boolCellToNum) t.shape newId s)
    else if target_type = "int32" then
      .ok (newId, registerConverted .int32 "int32"
        (t.data.map boolCellToNum) t.shape newId s)
    else if target_type = "int64" then
      .ok (newId, registerConverted .int64 "int64"
        (t.data.map boolCellToNum) t.shape newId s)
    else if target_type = "uint8" then
      .ok (newId, registerConverted .uint8 "uint8"
        (t.data.map boolCellToNum) t.shape newId s)
    else
      .error ("Unsupported type: " ++ target_type)

/-- The same-type branch of `TensorManager::convertTensor`: the `if`/`else if`
chain clones buffer and tensor for the five known type tags only, but the
type tag and shape of `new_tensor_id` are recorded unconditionally after the
chain. -/
def convertSameType (source_type : String) (t : OrtVal) (newId : String)
    (s : State) : State :=
  let s1 :=
    if source_type = "float32" then
      { s with tensors := aset s.tensors newId ⟨.float, t.data, t.shape⟩
               tensor_data_buffers := aset s.tensor_data_buffers newId t.data }
    else if source_type = "int32" then
      { s with tensors := aset s.tensors newId ⟨.int32, t.data, t.shape⟩
               tensor_data_buffers := aset s.tensor_data_buffers newId t.data }
    else if source_type = "int64" then
      { s with tensors := aset s.tensors newId ⟨.int64, t.data, t.shape⟩
               tensor_data_buffers := aset s.tensor_data_buffers newId t.data }
    else if source_type = "uint8" then
      { s with tensors := aset s.tensors newId ⟨.uint8, t.data, t.shape⟩
               tensor_data_buffers := aset s.tensor_data_buffers newId t.data }
    else if source_type = "bool" then
      { s with tensors := aset s.tensors newId ⟨.bool, t.data, t.shape⟩
               tensor_data_buffers := aset s.tensor_data_buffers newId t.data }
    else
      s
  { s1 with tensor_types := aset s1.tensor_types newId source_type
            tensor_shapes := aset s1.tensor_shapes newId t.shape }

/-- Embeds `TensorManager::convertTensor`: requires the id in all three maps
(else `throw "Tensor not found"`); clones on equal source/target type,
otherwise dispatches on the source type tag, throwing
`"Unsupported type: ..."` for tags without a conversion family. -/
def convertTensor (tensor_id target_type newId : String) (s : State) :
    Except String (String × State) :=
  match aget s.tensors tensor_id, aget s.tensor_types tensor_id,
      aget s.tensor_shapes tensor_id with
  | some t, some source_type, some _ =>
    if source_type = target_type then
      .ok (newId, convertSameType source_type t newId s)
    else if source_type = "float32" then
      convertFloat32To tensor_id target_type newId s
    else if source_type = "int32" then
      convertInt32To tensor_id target_type newId s
    else if source_type = "int64" then
      convertInt64To tensor_id target_type newId s
    else if source_type = "uint8" then
      convertUint8To tensor_id target_type newId s
    else if source_type = "bool" then
      convertBoolTo tensor_id target_type newId s
    else
      .error ("Unsupported type: " ++ source_type)
  | _, _, _ => .error "Tensor not found"

end WinTensorManager

namespace LinTensorManager

/-! ## TensorManager (src/linux/src/tensor_manager.cc)

Three maps plus the monotone counter `next_tensor_id_` (initialised to 1);
`generateTensorId` returns `"tensor_" + std::to_string(next_tensor_id_++)`.
None of the `create*Tensor` functions compares the payload length with the
shape product: they copy the data and hand the copy to
`Ort::Value::CreateTensor(memory_info_, tensor_data, data.size(),
shape.data(), shape.size())`.  The library's only check is that the supplied
buffer covers the shape: it computes the element count of the shape (the
product of the dimension sizes) and throws `Ort::Exception` ("not enough
space") when `data.size()` falls short of it, and likewise rejects a
negative dimension size while reducing the shape; the `catch` then returns
the empty string with nothing registered (the id counter has already been
advanced by `generateTensorId`).  A payload *longer* than the shape product
is accepted outright — nothing resembling `ShapeMismatch` is ever raised. -/

structure State where
  tensors : List (String × OrtVal)
  tensor_types : List (String × String)
  tensor_shapes : List (String × List Int)
  next_tensor_id : Nat
  deriving DecidableEq, Repr

/-- The state after the constructor: empty maps, `next_tensor_id_(1)`. -/
def initState : State := ⟨[], [], [], 1⟩

/-- Embeds `TensorManager::generateTensorId`. -/
def generateTensorId (s : State) : String × State :=
  ("tensor_" ++ toString s.next_tensor_id,
    { s with next_tensor_id := s.next_tensor_id + 1 })

/-- The element count of a shape as the library computes it while checking
the supplied buffer: the product of the dimension sizes (`int64_t`
arithmetic; an empty shape is a scalar with one element). -/
def ortShapeProduct (shape : List Int) : Int :=
  shape.foldl (fun a d => a * d) 1

/-- Common body of the five linux `create*Tensor` functions (they differ only
in element type and tag string).  No payload/shape *equality* validation
occurs; the only failure is the library buffer check of
`Ort::Value::CreateTensor` (thrown `Ort::Exception`, caught, empty id
returned, nothing registered — but the id counter was already advanced):
it fires exactly when some dimension size is negative or the payload holds
fewer elements than the shape product. -/
def createTensorCore (ty : OnnxElementType) (tyStr : String) (data : List ℚ)
    (shape : List Int) (s : State) : String × State :=
  let (tensor_id, s1) := generateTensorId s
  if (∀ d ∈ shape, 0 ≤ d) ∧ ortShapeProduct shape ≤ (data.length : Int) then
    (tensor_id,
      { s1 with
        tensors := aset s1.tensors tensor_id ⟨ty, data, shape⟩
        tensor_types := aset s1.tensor_types tensor_id tyStr
        tensor_shapes := aset s1.tensor_shapes tensor_id shape })
  else ("", s1)

/-- Embeds `TensorManager::createFloat32Tensor` (linux). -/
def createFloat32Tensor : List ℚ → List Int → State → String × State :=
  createTensorCore .float "float32"

/-- Embeds `TensorManager::createInt32Tensor` (linux). -/
def createInt32Tensor : List ℚ → List Int → State → String × State :=
  createTensorCore .int32 "int32"

/-- Embeds `TensorManager::createInt64Tensor` (linux). -/
def createInt64Tensor : List ℚ → List Int → State → String × State :=
  createTensorCore .int64 "int64"

/-- Embeds `TensorManager::createUint8Tensor` (linux). -/
def createUint8Tensor : List ℚ → List Int → State → String × State :=
  createTensorCore .uint8 "uint8"

/-- Embeds `TensorManager::createBoolTensor` (linux). -/
def createBoolTensor : List ℚ → List Int → State → String × State :=
  createTensorCore .bool "bool"

/-- Embeds `TensorManager::getTensor` (linux). -/
def getTensor (s : State) (tensor_id : String) : Option OrtVal :=
  aget s.tensors tensor_id

/-- Embeds `TensorManager::releaseTensor` (linux): identical logic to the windows
variant, minus the buffers map. -/
def releaseTensor (tensor_id : String) (s : State) : Bool × State :=
  match aget s.tensors tensor_id with
  | none => (false, s)
  | some _ =>
      (true,
        { s with
          tensors := aerase s.tensors tensor_id
          tensor_types := aerase s.tensor_types tensor_id
          tensor_shapes := aerase s.tensor_shapes tensor_id })

/-- Embeds `TensorManager::storeTensor` (linux): store the tensor and derive type
tag (via the `switch` embedded as `get_element_type_string`) and shape from
the tensor itself. -/
def storeTensor (tensor_id : String) (t : OrtVal) (s : State) : State :=
  { s with
    tensors := aset s.tensors tensor_id t
    tensor_shapes := aset s.tensor_shapes tensor_id t.shape
    tensor_types :=
      aset s.tensor_types tensor_id (get_element_type_string t.etype) }

end LinTensorManager

/-! ## Exact binary32 encoder

`Float16Utils::floatToFloat16` receives a `float` and `memcpy`s it into a
`uint32_t`.  Where the embedding composes it with value-level payloads, this
encoder reconstructs the bit pattern.  It is exact for nonzero normal
binary32 values (every value such a payload can hold in the modelled flows);
other rationals (never produced there) map to 0. -/
def encodeF32 (q : ℚ) : Nat :=
  if q = 0 then 0 else
  let s : Nat := if q < 0 then 1 else 0
  let a : ℚ := |q|
  let idx : Option Nat := (List.range 254).find?
    (fun i => decide ((2 : ℚ) ^ ((i : ℤ) - 126) ≤ a ∧
      a < (2 : ℚ) ^ ((i : ℤ) - 125)))
  match idx with
  | none => 0
  | some i =>
    let m : ℚ := a * (2 : ℚ) ^ (149 - (i : ℤ)) - 2 ^ 23
    let mn : Nat := m.num.toNat
    if 0 ≤ m ∧ m.den = 1 ∧ m.num < 2 ^ 23 then
      s * 2 ^ 31 + (i + 1) * 2 ^ 23 + mn
    else (0 : Nat)

namespace OrtValueFfi

/-! ## The FFI OrtValue registry (src/linux/ort_value.cc)

The global `g_ort_values` map plus the static counter of
`generate_ort_value_uuid` ( `"tensor_" + std::to_string(counter++)` ).
Functions return a JSON string naming the result `valueId`; the embedding
returns the id itself (JSON assembly is marshalling).  Failure paths set
`*error_out` and return `nullptr`, embedded as `Except.error`. -/

structure Globals where
  g_ort_values : List (String × OrtVal)
  counter : Nat
  deriving DecidableEq, Repr

/-- The initial globals: empty map, counter 0. -/
def initGlobals : Globals := ⟨[], 0⟩

/-- Embeds `generate_ort_value_uuid`. -/
def generate_ort_value_uuid (g : Globals) : String × Globals :=
  ("tensor_" ++ toString g.counter, { g with counter := g.counter + 1 })

/-- The `target_type` string → `ONNXTensorElementDataType` chain of
`ort_convert_tensor`. -/
def parseTargetType (target_type : String) : Option OnnxElementType :=
  if target_type = "float32" then some .float
  else if target_type = "float16" then some .float16
  else if target_type = "int32" then some .int32
  else if target_type = "int64" then some .int64
  else if target_type = "uint8" then some .uint8
  else if target_type = "bool" then some .bool
  else none

/-- The type names used in the "Unsupported conversion from ... to ..."
message of `ort_convert_tensor`. -/
def convTypeName : OnnxElementType → String
  | .float => "float32"
  | .float16 => "float16"
  | .int32 => "int32"
  | .int64 => "int64"
  | .uint8 => "uint8"
  | .bool => "bool"
  | _ => "unknown"

/-- The `static_cast<int32_t>` of an `int64_t` value: two's-complement wrap to
32 bits (the value reduced into `[-2^31, 2^31)`). -/
def wrap32 (x : Int) : Int := (x + 2 ^ 31) % 2 ^ 32 - 2 ^ 31

/-- A cell of a `float16` tensor holds the raw 16-bit pattern (the source
stores `uint16_t` arrays); recover it from the rational carrier. -/
def cellBits16 (q : ℚ) : Nat := q.num.toNat

/-- Embeds `ort_convert_tensor`.  Unknown id and unknown target type are errors.
**If the tensor already has the target element type, the same `value_id` is
returned and no new tensor is created or registered** (the early-return at
the `current_type == target_element_type` check).  Otherwise exactly six
source/target pairs are implemented; anything else is
"Unsupported conversion from ... to ...". -/
def ort_convert_tensor (value_id target_type : String) (g : Globals) :
    Except String (String × Globals) :=
  match aget g.g_ort_values value_id with
  | none => .error ("OrtValue with ID " ++ value_id ++ " not found")
  | some t =>
    match parseTargetType target_type with
    | none => .error ("Unsupported target data type: " ++ target_type)
    | some target =>
      if t.etype = target then
        -- early return: same handle, registry untouched
        .ok (value_id, g)
      else
        let register := fun (nt : OrtVal) (g : Globals) =>
          let (new_id, g1) := generate_ort_value_uuid g
          Except.ok (new_id,
            { g1 with g_ort_values := aset g1.g_ort_values new_id nt })
        if t.etype = .float ∧ target = .float16 then
          register ⟨.float16,
            t.data.map fun q => ((Float16Utils.floatToFloat16 (encodeF32 q) : ℚ)),
            t.shape⟩ g
        else if t.etype = .float16 ∧ target = .float then
          register ⟨.float,
            t.data.map fun q => float32Val (Float16Utils.float16ToFloat (cellBits16 q)),
            t.shape⟩ g
        else if t.etype = .float ∧ target = .int32 then
          register ⟨.int32, t.data.map fun q => ((truncQ q : ℚ)), t.shape⟩ g
        else if t.etype = .int32 ∧ target = .float then
          register ⟨.float, t.data, t.shape⟩ g
        else if t.etype = .int32 ∧ target = .int64 then
          register ⟨.int64, t.data, t.shape⟩ g
        else if t.etype = .int64 ∧ target = .int32 then
          register ⟨.int32, t.data.map fun q => ((wrap32 q.num : ℚ)), t.shape⟩ g
        else
          .error ("Unsupported conversion from " ++ convTypeName t.etype
            ++ " to " ++ target_type)

/-- Embeds `ort_release_tensor`: unknown id returns `false` (with an error message
written to `*error_out`, but no exception); otherwise erase and return
`true`. -/
def ort_release_tensor (value_id : String) (g : Globals) : Bool × Globals :=
  match aget g.g_ort_values value_id with
  | none => (false, g)
  | some _ =>
      (true, { g with g_ort_values := aerase g.g_ort_values value_id })

/-- The `size_t` conversion of an `int64_t` shape entry (wraps modulo 2^64). -/
def usizeOfInt (d : Int) : Nat := (d % (2 ^ 64 : Int)).toNat

/-- Embeds `size_t total_elements = 1; for (dim : shape) total_elements *= dim;`
(`size_t` arithmetic, modulo 2^64). -/
def totalElements (shape : List Int) : Nat :=
  shape.foldl (fun a d => a * usizeOfInt d % 2 ^ 64) 1

/-- The float32 branch of the legacy `createOrtValue` method handler
(src/linux/flutter_onnxruntime_plugin.cc): the only creation path in the
repository that validates the payload length against the shape product.
Before any per-type work the handler rejects an empty shape vector with
`INVALID_SHAPE`.  Then, on `float_data.size() != total_elements`, it answers
`SHAPE_MISMATCH` and returns before anything is registered; otherwise it
creates the tensor and registers it in `g_ort_values` under a fresh uuid. -/
def legacyCreateOrtValueFloat32 (data : List ℚ) (shape : List Int)
    (g : Globals) : Except String (String × Globals) :=
  if shape.isEmpty then
    .error "INVALID_SHAPE"
  else if data.length ≠ totalElements shape then
    .error "SHAPE_MISMATCH"
  else
    let (value_id, g1) := generate_ort_value_uuid g
    .ok (value_id,
      { g1 with
        g_ort_values := aset g1.g_ort_values value_id ⟨.float, data, shape⟩ })

end OrtValueFfi

namespace LinPlugin

/-! ## run_inference (src/linux/src/flutter_onnxruntime_plugin.cc)

The input-preparation loop, the guarded `session->Run` call and the output
registration, modelled after the session has been resolved.  `FlValue`
arguments are embedded just deeply enough for the loop's well-formedness
checks (string keys, map values, a string under `"valueId"`). -/

/-- The slice of `FlValue` the inference input loop inspects. -/
inductive FlVal
  | str (s : String)
  | map (kvs : List (String × FlVal))
  | other
  deriving Repr

/-- Embeds `fl_value_lookup_string` on an embedded map value. -/
def flLookup (kvs : List (String × FlVal)) (key : String) : Option FlVal :=
  (kvs.find? (fun p => p.1 == key)).map (·.2)

/-- One iteration of the input loop.  `none` is a `continue`: non-string key
or non-map value, missing or non-string `"valueId"`, tensor id absent from
the registry, or an element type outside the five supported `switch` cases
(`default: break` pushes nothing).  A resolved input is deep-copied
(`new T[element_count]` + `memcpy`) into a fresh tensor over the same data
and shape. -/
def resolveInput (s : LinTensorManager.State) (kv : FlVal × FlVal) :
    Option OrtVal :=
  match kv with
  | (.str _, .map m) =>
    match flLookup m "valueId" with
    | some (.str tensor_id) =>
      match LinTensorManager.getTensor s tensor_id with
      | some t =>
        match t.etype with
        | .float => some ⟨.float, t.data, t.shape⟩
        | .int32 => some ⟨.int32, t.data, t.shape⟩
        | .int64 => some ⟨.int64, t.data, t.shape⟩
        | .uint8 => some ⟨.uint8, t.data, t.shape⟩
        | .bool => some ⟨.bool, t.data, t.shape⟩
        | _ => none
      | none => none
    | _ => none
  | _ => none

/-- The whole input loop: resolved inputs in order, unresolved ones skipped. -/
def resolveInputs (s : LinTensorManager.State) (inputs : List (FlVal × FlVal)) :
    List OrtVal :=
  inputs.filterMap (resolveInput s)

/-- Register one output tensor: mint an id with `generateTensorId`, hand the
tensor to `storeTensor`, and read back its type and shape for the response
entry `(name, (value_id, type, shape))`. -/
def registerOutput (acc : List (String × String × String × List Int) ×
    LinTensorManager.State) (nameAndTensor : String × OrtVal) :
    List (String × String × String × List Int) × LinTensorManager.State :=
  let (name, t) := nameAndTensor
  let (value_id, s1) := LinTensorManager.generateTensorId acc.2
  let s2 := LinTensorManager.storeTensor value_id t s1
  let tensor_type := (aget s2.tensor_types value_id).getD ""
  let shape := (aget s2.tensor_shapes value_id).getD []
  (acc.1 ++ [(name, value_id, tensor_type, shape)], s2)

/-- Embeds `run_inference`, from input preparation onwards.  The Compute Engine
(`session->Run`) is an oracle `engine`; it is invoked only when at least one
input tensor was resolved (`if (!input_tensors.empty())`), so a run with no
resolved inputs returns an empty outputs map without touching the engine.
An engine exception surfaces as the error map; otherwise each output tensor
is stored and paired with its declared output name. -/
def run_inference (engine : List OrtVal → Except String (List OrtVal))
    (s : LinTensorManager.State) (output_names : List String)
    (inputs : List (FlVal × FlVal)) :
    Except String
      (List (String × String × String × List Int) × LinTensorManager.State) :=
  let input_tensors := resolveInputs s inputs
  match
    (if input_tensors.isEmpty then .ok [] else engine input_tensors :
      Except String (List OrtVal)) with
  | .error e => .error e
  | .ok output_tensors =>
    .ok ((output_names.zip output_tensors).foldl registerOutput ([], s))

end LinPlugin

namespace WinPlugin

/-! ## HandleRunInference (src/windows/flutter_onnxruntime_plugin.cpp)

The windows input loop, the guarded `runInference` call and the output
registration, modelled after session resolution exactly as for the linux
handler.  The slice of `flutter::EncodableValue` the loop inspects (string
keys, map values, a string under `"valueId"`) coincides with the `FlValue`
slice, so the embedding reuses `LinPlugin.FlVal` and `LinPlugin.flLookup`.
The loop clones a found tensor via `TensorManager::cloneTensor`, which is
declared in tensor_manager.h but has no body in this tree; following the
specification (`clone(handle)` yields a deep copy of the referenced buffer
and fails only with `HandleNotFound`), a clone performed after the loop's
`getTensor` null check succeeds and the `if (cloned_tensor)` truthiness test
passes, while a clone failure would be caught and skipped like the other
malformed cases.  Random output ids from `generateTensorId` are supplied as
the explicit list `newIds` (one id per output tensor, like the explicit
`newId` arguments elsewhere in the windows embedding). -/

/-- One iteration of the windows input loop.  `continue` (embedded as `none`)
on: non-string key or non-map value, missing or non-string `"valueId"`, or a
tensor id absent from the registry.  A found tensor is deep-copied by
`cloneTensor` and pushed. -/
def resolveInput (s : WinTensorManager.State)
    (kv : LinPlugin.FlVal × LinPlugin.FlVal) : Option OrtVal :=
  match kv with
  | (.str _, .map m) =>
    match LinPlugin.flLookup m "valueId" with
    | some (.str tensor_id) =>
      match WinTensorManager.getTensor s tensor_id with
      | some t => some ⟨t.etype, t.data, t.shape⟩
      | none => none
    | _ => none
  | _ => none

/-- The whole windows input loop: resolved inputs in order, unresolved ones
skipped. -/
def resolveInputs (s : WinTensorManager.State)
    (inputs : List (LinPlugin.FlVal × LinPlugin.FlVal)) : List OrtVal :=
  inputs.filterMap (resolveInput s)

/-- Register the i-th output tensor under its minted id: `storeTensor`
transfers ownership, the stored type and shape are read back (present by
construction right after the store, so the read never hits the default),
and the response entry is added only when `i < output_names.size()`. -/
def registerOutput (output_names : List String)
    (acc : List (String × String × String × List Int) ×
      WinTensorManager.State) (item : Nat × OrtVal × String) :
    List (String × String × String × List Int) × WinTensorManager.State :=
  let (i, t, value_id) := item
  let s2 := WinTensorManager.storeTensor value_id t acc.2
  let tensor_type := (aget s2.tensor_types value_id).getD ""
  let shape := (aget s2.tensor_shapes value_id).getD []
  if i < output_names.length then
    (acc.1 ++ [(output_names.getD i "", value_id, tensor_type, shape)], s2)
  else (acc.1, s2)

/-- Embeds `FlutterOnnxruntimePlugin::HandleRunInference` from input
preparation onwards.  The Compute Engine (`runInference`) is an oracle
`engine`; it is invoked only when at least one input tensor was resolved
(`if (!input_tensors.empty())`), so a run with no resolved inputs returns an
empty outputs map without touching the engine.  An engine exception
surfaces as the error response; otherwise every output tensor is stored and
those with a declared name are paired with it in order. -/
def HandleRunInference (engine : List OrtVal → Except String (List OrtVal))
    (s : WinTensorManager.State) (output_names : List String)
    (inputs : List (LinPlugin.FlVal × LinPlugin.FlVal))
    (newIds : List String) :
    Except String
      (List (String × String × String × List Int) ×
        WinTensorManager.State) :=
  let input_tensors := resolveInputs s inputs
  match
    (if input_tensors.isEmpty then .ok [] else engine input_tensors :
      Except String (List OrtVal)) with
  | .error e => .error e
  | .ok output_tensors =>
    .ok (((output_tensors.zip newIds).enum).foldl
      (registerOutput output_names) ([], s))

end WinPlugin


/-! ## Concrete registries used by the claim-level evaluations -/

/-- A registry holding one float32 tensor `[1.0]` of shape `[1]` under
`"tensor_0"` (counter already at 1). -/
def c1Globals : OrtValueFfi.Globals :=
  ⟨[("tensor_0", ⟨.float, [1], [1]⟩)], 1⟩

/-- A registry holding one float32 tensor `[3.7]` of shape `[1]` under
`"tensor_0"`. -/
def c3Globals : OrtValueFfi.Globals :=
  ⟨[("tensor_0", ⟨.float, [37 / 10], [1]⟩)], 1⟩

/-- A windows tensor manager holding one float32 tensor `[3.7]` of shape
`[1]` under `"tensor_0"`. -/
def c3WinState : WinTensorManager.State :=
  (WinTensorManager.createFloat32Tensor [37 / 10] [1] "tensor_0"
    WinTensorManager.initState).2

/-- A registry holding one int64 tensor `[2^31]` of shape `[1]` under
`"tensor_0"`. -/
def c4Globals : OrtValueFfi.Globals :=
  ⟨[("tensor_0", ⟨.int64, [2147483648], [1]⟩)], 1⟩

/-- A windows tensor manager holding one int64 tensor
`[2^31, -2^31 - 1, 7]` of shape `[3]` under `"tensor_0"`. -/
def c4WinState : WinTensorManager.State :=
  (WinTensorManager.createInt64Tensor [2147483648, -2147483649, 7] [3]
    "tensor_0" WinTensorManager.initState).2

/-- A windows tensor manager holding one tensor of element type `double`
(as an inference output stored via `storeTensor` would produce). -/
def c9State : WinTensorManager.State :=
  WinTensorManager.storeTensor "tensor_0" ⟨.double, [1], [1]⟩
    WinTensorManager.initState

/-- The registry invariant of claim C9: the three maps `tensors_`,
`tensor_types_` and `tensor_shapes_` are keyed by the same handles, and for
every live handle the stored tag is the element type string of the stored
tensor and the stored shape is that tensor's shape. -/
def Consistent (s : WinTensorManager.State) : Prop :=
  ∀ k : String,
    ((aget s.tensors k).isSome ↔ (aget s.tensor_types k).isSome) ∧
    ((aget s.tensors k).isSome ↔ (aget s.tensor_shapes k).isSome) ∧
    (∀ t ty, aget s.tensors k = some t → aget s.tensor_types k = some ty →
      ty = get_element_type_string t.etype) ∧
    (∀ t sh, aget s.tensors k = some t → aget s.tensor_shapes k = some sh →
      sh = t.shape)

/-- The registry invariant of claim C9 on the linux manager: the three maps
`tensors_`, `tensor_types_` and `tensor_shapes_` are keyed by the same
handles, and for every live handle the stored tag is the element type
string of the stored tensor and the stored shape is that tensor's shape. -/
def LinConsistent (s : LinTensorManager.State) : Prop :=
  ∀ k : String,
    ((aget s.tensors k).isSome ↔ (aget s.tensor_types k).isSome) ∧
    ((aget s.tensors k).isSome ↔ (aget s.tensor_shapes k).isSome) ∧
    (∀ t ty, aget s.tensors k = some t → aget s.tensor_types k = some ty →
      ty = get_element_type_string t.etype) ∧
    (∀ t sh, aget s.tensors k = some t → aget s.tensor_shapes k = some sh →
      sh = t.shape)

/-- A linux tensor manager holding one float32 tensor `[1.0]` of shape `[1]`
under `"tensor_1"`. -/
def c8State : LinTensorManager.State :=
  (LinTensorManager.createFloat32Tensor [1] [1] LinTensorManager.initState).2

/-- A windows tensor manager holding one float32 tensor `[1.0]` of shape
`[1]` under `"tensor_1"`. -/
def c8WinState : WinTensorManager.State :=
  (WinTensorManager.createFloat32Tensor [1] [1] "tensor_1"
    WinTensorManager.initState).2


/-- Sign field of a binary32 pattern (`(b >> 31) & 1`). -/
def f32sign (b : Nat) : Nat := b / 2 ^ 31 % 2

/-- Exponent field of a binary32 pattern (`(b >> 23) & 0xFF`). -/
def f32exp (b : Nat) : Nat := b / 2 ^ 23 % 2 ^ 8

/-- Mantissa field of a binary32 pattern (`b & 0x7FFFFF`). -/
def f32mant (b : Nat) : Nat := b % 2 ^ 23

/-! # Theorems

Helper lemmas about the association-list maps, then one theorem (plus
witness / counterexample where required) per claim. -/

theorem find_filter_ne {V : Type} (m : List (String × V)) (k k' : String)
    (h : k' ≠ k) :
    (m.filter (fun p => p.1 != k)).find? (fun p => p.1 == k')
      = m.find? (fun p => p.1 == k') := by
  induction m with
  | nil => rfl
  | cons p t ih =>
    by_cases hp : p.1 = k
    · have hf : (p.1 != k) = false := by simp [hp]
      have h2 : (p.1 == k') = false := by
        refine beq_eq_false_iff_ne.mpr ?_
        rw [hp]; exact fun he => h he.symm
      simp [List.filter_cons, hf, List.find?_cons, h2, ih]
    · have hf : (p.1 != k) = true := bne_iff_ne.mpr hp
      by_cases hq : p.1 = k'
      · simp [List.filter_cons, hf, List.find?_cons, hq, h]
      · have h2 : (p.1 == k') = false := beq_eq_false_iff_ne.mpr hq
        simp [List.filter_cons, hf, List.find?_cons, h2, ih]

theorem find_filter_self {V : Type} (m : List (String × V)) (k : String) :
    (m.filter (fun p => p.1 != k)).find? (fun p => p.1 == k) = none := by
  induction m with
  | nil => rfl
  | cons p t ih =>
    by_cases hp : p.1 = k
    · have hf : (p.1 != k) = false := by simp [hp]
      simp [List.filter_cons, hf, ih]
    · have hf : (p.1 != k) = true := bne_iff_ne.mpr hp
      have h2 : (p.1 == k) = false := beq_eq_false_iff_ne.mpr hp
      simp [List.filter_cons, hf, List.find?_cons, h2, ih]

theorem aget_aset {V : Type} (m : List (String × V)) (k k' : String) (v : V) :
    aget (aset m k v) k' = if k' = k then some v else aget m k' := by
  unfold aget aset
  by_cases h : k' = k
  · subst h
    simp [List.find?_cons]
  · have hk : (k == k') = false := by
      refine beq_eq_false_iff_ne.mpr ?_
      exact fun he => h he.symm
    simp [List.find?_cons, hk, if_neg h, find_filter_ne m k k' h]

theorem aget_aerase {V : Type} (m : List (String × V)) (k k' : String) :
    aget (aerase m k) k' = if k' = k then none else aget m k' := by
  unfold aget aerase
  by_cases h : k' = k
  · subst h
    simp [find_filter_self m k']
  · simp [if_neg h, find_filter_ne m k k' h]


/-- The map `truncQ` is floor on nonnegative rationals and ceiling on negative
ones: truncation toward zero. -/
theorem truncQ_eq_floor_ceil (q : ℚ) :
    truncQ q = if 0 ≤ q then ⌊q⌋ else ⌈q⌉ := by
  unfold truncQ
  by_cases h : 0 ≤ q
  · rw [if_pos h, Rat.floor_def,
      Int.tdiv_eq_ediv (Rat.num_nonneg.mpr h) (Int.ofNat_nonneg q.den)]
  · rw [if_neg h]
    have hq : (0 : ℚ) ≤ -q := by push_neg at h; linarith
    have hnum : 0 ≤ -q.num := by
      have := Rat.num_nonneg.mpr hq
      simpa [Rat.neg_num] using this
    have hceil : ⌈q⌉ = -⌊-q⌋ := rfl
    rw [hceil, Rat.floor_def, Rat.neg_num, Rat.neg_den]
    have hrw : q.num.tdiv (q.den : Int) = -((-q.num).tdiv (q.den : Int)) := by
      rw [Int.neg_tdiv, neg_neg]
    rw [hrw, Int.tdiv_eq_ediv hnum (Int.ofNat_nonneg q.den)]

/-- Claim C1 (code bug evaluation): for a registered float32 tensor, the
linux FFI conversion to the *same* element type returns the source handle
itself and leaves the registry untouched — no fresh handle, no deep copy —
contradicting the mandated copy-only semantics the claim states. -/
theorem C1_same_type_convert_returns_source_handle :
    OrtValueFfi.ort_convert_tensor "tensor_0" "float32" c1Globals
      = .ok ("tensor_0", c1Globals) := by
  rfl


/-- Claim C10: on both cited handlers — the linux `run_inference` and the
windows `HandleRunInference` — when input resolution yields no tensors
(empty inputs map or only unresolvable handles), the run succeeds with an
empty output mapping; the result does not depend on the compute engine at
all, so the backend is never invoked. -/
theorem C10_empty_resolution_never_calls_engine :
    (∀ (engine engine2 : List OrtVal → Except String (List OrtVal))
      (s : LinTensorManager.State) (output_names : List String)
      (inputs : List (LinPlugin.FlVal × LinPlugin.FlVal)),
      LinPlugin.resolveInputs s inputs = [] →
        LinPlugin.run_inference engine s output_names inputs = .ok ([], s) ∧
        LinPlugin.run_inference engine s output_names inputs
          = LinPlugin.run_inference engine2 s output_names inputs) ∧
    (∀ (engine engine2 : List OrtVal → Except String (List OrtVal))
      (w : WinTensorManager.State) (output_names : List String)
      (inputs : List (LinPlugin.FlVal × LinPlugin.FlVal))
      (newIds : List String),
      WinPlugin.resolveInputs w inputs = [] →
        WinPlugin.HandleRunInference engine w output_names inputs newIds
          = .ok ([], w) ∧
        WinPlugin.HandleRunInference engine w output_names inputs newIds
          = WinPlugin.HandleRunInference engine2 w output_names inputs
            newIds) := by
  refine ⟨?_, ?_⟩
  · intro engine engine2 s output_names inputs h
    refine ⟨?_, ?_⟩
    · unfold LinPlugin.run_inference
      rw [h]
      simp
    · unfold LinPlugin.run_inference
      rw [h]
      rfl
  · intro engine engine2 w output_names inputs newIds h
    refine ⟨?_, ?_⟩
    · unfold WinPlugin.HandleRunInference
      rw [h]
      rfl
    · unfold WinPlugin.HandleRunInference
      rw [h]
      rfl

/-- Witness for C10 at concrete runs (one per platform) whose only input is
malformed. -/
theorem C10_witness :
    LinPlugin.run_inference (fun _ => .error "engine failure")
        LinTensorManager.initState ["out"] [(.other, .other)]
      = .ok ([], LinTensorManager.initState) ∧
    WinPlugin.HandleRunInference (fun _ => .error "engine failure")
        WinTensorManager.initState ["out"] [(.other, .other)] ["tensor_9"]
      = .ok ([], WinTensorManager.initState) :=
  ⟨(C10_empty_resolution_never_calls_engine.1
      (fun _ => .error "engine failure") (fun _ => .ok [])
      LinTensorManager.initState ["out"] [(.other, .other)] (by rfl)).1,
   (C10_empty_resolution_never_calls_engine.2
      (fun _ => .error "engine failure") (fun _ => .ok [])
      WinTensorManager.initState ["out"] [(.other, .other)] ["tensor_9"]
      (by rfl)).1⟩

/-- Claim C8: on both cited handlers — the linux `run_inference` and the
windows `HandleRunInference` — an input whose handle does not resolve (or
whose entry is malformed) is skipped: dropping it from the inputs map
changes neither the resolved input list nor the result of the run, so such
an input never by itself fails the run. -/
theorem C8_unresolvable_input_is_skipped :
    (∀ (engine : List OrtVal → Except String (List OrtVal))
      (s : LinTensorManager.State) (output_names : List String)
      (pre post : List (LinPlugin.FlVal × LinPlugin.FlVal))
      (bad : LinPlugin.FlVal × LinPlugin.FlVal),
      LinPlugin.resolveInput s bad = none →
        LinPlugin.resolveInputs s (pre ++ bad :: post)
          = LinPlugin.resolveInputs s (pre ++ post) ∧
        LinPlugin.run_inference engine s output_names (pre ++ bad :: post)
          = LinPlugin.run_inference engine s output_names (pre ++ post)) ∧
    (∀ (engine : List OrtVal → Except String (List OrtVal))
      (w : WinTensorManager.State) (output_names : List String)
      (newIds : List String)
      (pre post : List (LinPlugin.FlVal × LinPlugin.FlVal))
      (bad : LinPlugin.FlVal × LinPlugin.FlVal),
      WinPlugin.resolveInput w bad = none →
        WinPlugin.resolveInputs w (pre ++ bad :: post)
          = WinPlugin.resolveInputs w (pre ++ post) ∧
        WinPlugin.HandleRunInference engine w output_names
            (pre ++ bad :: post) newIds
          = WinPlugin.HandleRunInference engine w output_names (pre ++ post)
            newIds) := by
  refine ⟨?_, ?_⟩
  · intro engine s output_names pre post bad h
    have h1 : LinPlugin.resolveInputs s (pre ++ bad :: post)
        = LinPlugin.resolveInputs s (pre ++ post) := by
      unfold LinPlugin.resolveInputs
      simp [List.filterMap_append, List.filterMap_cons, h]
    refine ⟨h1, ?_⟩
    unfold LinPlugin.run_inference
    rw [h1]
  · intro engine w output_names newIds pre post bad h
    have h1 : WinPlugin.resolveInputs w (pre ++ bad :: post)
        = WinPlugin.resolveInputs w (pre ++ post) := by
      unfold WinPlugin.resolveInputs
      simp [List.filterMap_append, List.filterMap_cons, h]
    refine ⟨h1, ?_⟩
    unfold WinPlugin.HandleRunInference
    rw [h1]

/-- Witness for C8: an unknown-handle input ahead of a resolvable one, on
each platform. -/
theorem C8_witness :
    (LinPlugin.resolveInputs c8State
        [(.other, .other),
         (LinPlugin.FlVal.str "x", .map [("valueId", .str "tensor_1")])]
      = LinPlugin.resolveInputs c8State
        [(LinPlugin.FlVal.str "x", .map [("valueId", .str "tensor_1")])] ∧
    LinPlugin.run_inference (fun ts => .ok ts) c8State ["out"]
        [(.other, .other),
         (LinPlugin.FlVal.str "x", .map [("valueId", .str "tensor_1")])]
      = LinPlugin.run_inference (fun ts => .ok ts) c8State ["out"]
        [(LinPlugin.FlVal.str "x", .map [("valueId", .str "tensor_1")])]) ∧
    (WinPlugin.resolveInputs c8WinState
        [(.other, .other),
         (LinPlugin.FlVal.str "x", .map [("valueId", .str "tensor_1")])]
      = WinPlugin.resolveInputs c8WinState
        [(LinPlugin.FlVal.str "x", .map [("valueId", .str "tensor_1")])] ∧
    WinPlugin.HandleRunInference (fun ts => .ok ts) c8WinState ["out"]
        [(.other, .other),
         (LinPlugin.FlVal.str "x", .map [("valueId", .str "tensor_1")])]
        ["tensor_9"]
      = WinPlugin.HandleRunInference (fun ts => .ok ts) c8WinState ["out"]
        [(LinPlugin.FlVal.str "x", .map [("valueId", .str "tensor_1")])]
        ["tensor_9"]) :=
  ⟨C8_unresolvable_input_is_skipped.1 (fun ts => .ok ts) c8State ["out"] []
    [(LinPlugin.FlVal.str "x", .map [("valueId", .str "tensor_1")])]
    (.other, .other) (by rfl),
   C8_unresolvable_input_is_skipped.2 (fun ts => .ok ts) c8WinState ["out"]
    ["tensor_9"] []
    [(LinPlugin.FlVal.str "x", .map [("valueId", .str "tensor_1")])]
    (.other, .other) (by rfl)⟩

/-- A release on a handle absent from the linux tensor map returns `false`
and leaves the state untouched. -/
theorem lin_release_absent (s : LinTensorManager.State) (h : String)
    (hn : aget s.tensors h = none) :
    LinTensorManager.releaseTensor h s = (false, s) := by
  unfold LinTensorManager.releaseTensor
  rw [hn]

/-- A release on a handle absent from the windows tensor map returns `false`
and leaves the state untouched. -/
theorem win_release_absent (w : WinTensorManager.State) (h : String)
    (hn : aget w.tensors h = none) :
    WinTensorManager.releaseTensor h w = (false, w) := by
  unfold WinTensorManager.releaseTensor
  rw [hn]

/-- Claim C7: in both tensor managers, a lookup right after `releaseTensor`
reports the handle gone, releasing twice yields `false` the second time, and
releasing a handle that was never registered yields `false` and leaves the
state unchanged; release itself never fails. -/
theorem C7_release_reports_absence_as_false :
    ∀ (s : LinTensorManager.State) (w : WinTensorManager.State) (h : String),
      LinTensorManager.getTensor (LinTensorManager.releaseTensor h s).2 h
        = none ∧
      (LinTensorManager.releaseTensor h
        (LinTensorManager.releaseTensor h s).2).1 = false ∧
      (LinTensorManager.getTensor s h = none →
        LinTensorManager.releaseTensor h s = (false, s)) ∧
      WinTensorManager.getTensor (WinTensorManager.releaseTensor h w).2 h
        = none ∧
      (WinTensorManager.releaseTensor h
        (WinTensorManager.releaseTensor h w).2).1 = false ∧
      (WinTensorManager.getTensor w h = none →
        WinTensorManager.releaseTensor h w = (false, w)) := by
  intro s w h
  have lin : LinTensorManager.getTensor
      (LinTensorManager.releaseTensor h s).2 h = none := by
    unfold LinTensorManager.releaseTensor LinTensorManager.getTensor
    cases haget : aget s.tensors h with
    | none => simpa using haget
    | some t => simp [aget_aerase]
  have win : WinTensorManager.getTensor
      (WinTensorManager.releaseTensor h w).2 h = none := by
    unfold WinTensorManager.releaseTensor WinTensorManager.getTensor
    cases haget : aget w.tensors h with
    | none => simpa using haget
    | some t => simp [aget_aerase]
  refine ⟨lin, ?_, ?_, win, ?_, ?_⟩
  · rw [lin_release_absent _ h lin]
  · intro hnone
    exact lin_release_absent s h hnone
  · rw [win_release_absent _ h win]
  · intro hnone
    exact win_release_absent w h hnone

/-- Witness for C7 on a one-tensor linux registry and an empty windows one. -/
theorem C7_witness :
    LinTensorManager.getTensor
        (LinTensorManager.releaseTensor "tensor_1" c8State).2 "tensor_1"
      = none ∧
    WinTensorManager.releaseTensor "nope" WinTensorManager.initState
      = (false, WinTensorManager.initState) := by
  have h := C7_release_reports_absence_as_false c8State
    WinTensorManager.initState "tensor_1"
  have h2 := C7_release_reports_absence_as_false c8State
    WinTensorManager.initState "nope"
  exact ⟨h.1, h2.2.2.2.2.2 (by rfl)⟩


/-- Claim C3 counterexample: the linux FFI conversion of the buffer `[3.7]`
to `Int32` yields payload `[3]`, not `[4]`: the element is truncated
(`static_cast<int32_t>`), not rounded to nearest. -/
theorem C3_counterexample_linux_converts_3p7_to_3 :
    OrtValueFfi.ort_convert_tensor "tensor_0" "int32" c3Globals
      = .ok ("tensor_1",
        ⟨[("tensor_1", ⟨.int32, [3], [1]⟩),
          ("tensor_0", ⟨.float, [37 / 10], [1]⟩)], 2⟩) ∧
    ([(3 : ℚ)] ≠ [(4 : ℚ)]) := by
  have h37 : ((truncQ (37 / 10 : ℚ) : ℤ) : ℚ) = 3 := by
    rw [truncQ_eq_floor_ceil]
    norm_num
  constructor
  · show Except.ok ("tensor_1",
        ({ g_ort_values := [("tensor_1",
            ⟨.int32, [((truncQ (37 / 10 : ℚ) : ℤ) : ℚ)], [1]⟩),
          ("tensor_0", ⟨.float, [37 / 10], [1]⟩)], counter := 2 } :
          OrtValueFfi.Globals)) = _
    rw [h37]
  · intro hc
    have : (3 : ℚ) = 4 := by injection hc
    norm_num at this

/-- Claim C3 (amended): the windows conversion engine rounds Float32 to
Int32/Int64 to the nearest integer with ties away from zero (`[3.7] ↦ [4]`,
no clamping), but the linux FFI variant truncates toward zero instead and
has no Float32→Int64 rule at all; truncation never increases magnitude, so
the two variants genuinely disagree. -/
theorem C3_amended_windows_rounds_linux_truncates :
    (∀ q : ℚ, |((winF32ToInt q : ℤ) : ℚ) - q| ≤ 1 / 2) ∧
    (∀ q : ℚ, ∀ n : ℤ, |(n : ℚ) - q| < 1 / 2 → n = winF32ToInt q) ∧
    (∀ q : ℚ, |((winF32ToInt q : ℤ) : ℚ) - q| = 1 / 2 →
      |q| ≤ |((winF32ToInt q : ℤ) : ℚ)|) ∧
    WinTensorManager.convertFloat32To "tensor_0" "int32" "tensor_1" c3WinState
      = .ok ("tensor_1", WinTensorManager.registerConverted .int32 "int32"
          [4] [1] "tensor_1" c3WinState) ∧
    OrtValueFfi.ort_convert_tensor "tensor_0" "int64" c3Globals
      = .error "Unsupported conversion from float32 to int64" ∧
    (∀ q : ℚ, |((truncQ q : ℤ) : ℚ)| ≤ |q|) := by
  have key : ∀ q : ℚ, ((winF32ToInt q : ℤ) : ℚ) - q ≤ 1 / 2 ∧
      -(1 / 2) ≤ ((winF32ToInt q : ℤ) : ℚ) - q := by
    intro q
    unfold winF32ToInt
    by_cases h : 0 ≤ q
    · rw [if_pos h, truncQ_eq_floor_ceil, if_pos (by linarith)]
      constructor
      · have := Int.floor_le (q + 1 / 2)
        push_cast at this ⊢
        linarith
      · have := Int.lt_floor_add_one (q + 1 / 2)
        push_cast at this ⊢
        linarith
    · rw [if_neg h, truncQ_eq_floor_ceil,
        if_neg (not_le.mpr (by push_neg at h; linarith))]
      constructor
      · have := Int.ceil_lt_add_one (q + -1 / 2)
        push_cast at this ⊢
        linarith
      · have := Int.le_ceil (q + -1 / 2)
        push_cast at this ⊢
        linarith
  refine ⟨?_, ?_, ?_, ?_, ?_, ?_⟩
  · intro q
    have := key q
    rw [abs_sub_le_iff]
    constructor <;> linarith [this.1, this.2]
  · intro q n h
    have hk := key q
    have h1 : ((n : ℚ)) - q < 1 / 2 := (abs_lt.mp h).2
    have h2 : -(1 / 2) < ((n : ℚ)) - q := (abs_lt.mp h).1
    have hlt : |((n : ℚ)) - ((winF32ToInt q : ℤ) : ℚ)| < 1 := by
      rw [abs_lt]
      constructor <;> linarith [hk.1, hk.2]
    rw [show ((n : ℚ)) - ((winF32ToInt q : ℤ) : ℚ)
        = (((n - winF32ToInt q : ℤ) : ℚ)) by push_cast; ring] at hlt
    rw [← Int.cast_abs] at hlt
    have hz : n - winF32ToInt q = 0 :=
      Int.abs_lt_one_iff.mp (by exact_mod_cast hlt)
    omega
  · intro q h
    by_cases hq : 0 ≤ q
    · have hwin : ((winF32ToInt q : ℤ) : ℚ) = ((⌊q + 1 / 2⌋ : ℤ) : ℚ) := by
        unfold winF32ToInt
        rw [if_pos hq, truncQ_eq_floor_ceil, if_pos (by linarith)]
      rw [hwin] at h ⊢
      rcases (abs_eq (by norm_num : (0 : ℚ) ≤ 1 / 2)).mp h with he | he
      · rw [abs_of_nonneg hq, abs_of_nonneg (by linarith)]
        linarith
      · exfalso
        have := Int.lt_floor_add_one (q + 1 / 2)
        push_cast at this
        linarith
    · push_neg at hq
      have hwin : ((winF32ToInt q : ℤ) : ℚ) = ((⌈q + -1 / 2⌉ : ℤ) : ℚ) := by
        unfold winF32ToInt
        rw [if_neg (not_le.mpr hq), truncQ_eq_floor_ceil,
          if_neg (not_le.mpr (by linarith))]
      rw [hwin] at h ⊢
      rcases (abs_eq (by norm_num : (0 : ℚ) ≤ 1 / 2)).mp h with he | he
      · exfalso
        have := Int.ceil_lt_add_one (q + -1 / 2)
        push_cast at this
        linarith
      · rw [abs_of_neg hq, abs_of_nonpos (by linarith)]
        linarith
  · have h42 : ((winF32ToInt (37 / 10 : ℚ) : ℤ) : ℚ) = 4 := by
      unfold winF32ToInt
      rw [if_pos (by norm_num), truncQ_eq_floor_ceil, if_pos (by norm_num),
        show (37 / 10 + 1 / 2 : ℚ) = 21 / 5 by norm_num]
      norm_num
    show Except.ok ("tensor_1", WinTensorManager.registerConverted .int32 "int32"
        [((winF32ToInt (37 / 10 : ℚ) : ℤ) : ℚ)] [1] "tensor_1" c3WinState) = _
    rw [h42]
  · rfl
  · intro q
    rw [truncQ_eq_floor_ceil]
    by_cases h : 0 ≤ q
    · rw [if_pos h, abs_of_nonneg h,
        abs_of_nonneg (by exact_mod_cast Int.floor_nonneg.mpr h)]
      exact_mod_cast Int.floor_le q
    · push_neg at h
      rw [if_neg (not_le.mpr h), abs_of_neg h, abs_of_nonpos
          (by exact_mod_cast Int.ceil_le.mpr (by exact_mod_cast le_of_lt h))]
      have := Int.le_ceil q
      push_cast at this ⊢
      linarith

/-- Witness for C3 at `q = 0`, `n = 0`: zero is its own nearest integer. -/
theorem C3_amended_witness : (0 : ℤ) = winF32ToInt 0 :=
  C3_amended_windows_rounds_linux_truncates.2.1 0 0
    (by simp [one_half_pos])


/-- Claim C4 counterexample: the linux FFI conversion of the Int64 buffer
`[2147483648]` (one past `INT32_MAX`) to Int32 wraps to `[-2147483648]`
instead of saturating to `[2147483647]`. -/
theorem C4_counterexample_linux_wraps_int64_to_int32 :
    OrtValueFfi.ort_convert_tensor "tensor_0" "int32" c4Globals
      = .ok ("tensor_1",
        ⟨[("tensor_1", ⟨.int32, [-2147483648], [1]⟩),
          ("tensor_0", ⟨.int64, [2147483648], [1]⟩)], 2⟩) ∧
    ((-2147483648 : ℚ) ≠ 2147483647) := by
  constructor
  · rfl
  · norm_num

/-- Claim C4 (amended): the windows conversion engine saturates Int64 to the
destination range — `winI64ToI32`/`winI64ToU8` are exactly clamping to
`[INT32_MIN, INT32_MAX]` and `[0, 255]`, preserving in-range values — while
the linux FFI variant reduces Int64→Int32 modulo 2^32 (two's-complement
wrap-around) and supports no Int64→UInt8 conversion at all. -/
theorem C4_amended_windows_saturates_linux_wraps :
    (∀ x : ℚ, winI64ToI32 x = max (-2147483648) (min 2147483647 x) ∧
      winI64ToU8 x = max 0 (min 255 x)) ∧
    WinTensorManager.convertInt64To "tensor_0" "int32" "tensor_1" c4WinState
      = .ok ("tensor_1", WinTensorManager.registerConverted .int32 "int32"
          [2147483647, -2147483648, 7] [3] "tensor_1" c4WinState) ∧
    (∀ x : ℤ, -2147483648 ≤ x → x < 2147483648 → OrtValueFfi.wrap32 x = x) ∧
    OrtValueFfi.wrap32 4294967296 = 0 ∧
    OrtValueFfi.ort_convert_tensor "tensor_0" "uint8" c4Globals
      = .error "Unsupported conversion from int64 to uint8" := by
  refine ⟨?_, by rfl, ?_, by rfl, by rfl⟩
  · intro x
    constructor
    · unfold winI64ToI32
      simp only [max_def, min_def]
      split_ifs <;> linarith
    · unfold winI64ToU8
      simp only [max_def, min_def]
      split_ifs <;> linarith
  · intro x h1 h2
    unfold OrtValueFfi.wrap32
    rw [Int.emod_eq_of_lt (by linarith) (by linarith)]
    ring

/-- Witness for C4 at the in-range value 5: the linux wrap is the identity
there. -/
theorem C4_amended_witness : OrtValueFfi.wrap32 5 = 5 :=
  C4_amended_windows_saturates_linux_wraps.2.2.1 5 (by decide) (by decide)

/-- Claim C6 counterexample: the linux `TensorManager::createFloat32Tensor`
accepts the two-element payload `[1, 2]` with the one-element shape `[1]`,
registering a tensor under a fresh handle — no `ShapeMismatch`, even though
the counts disagree. -/
theorem C6_counterexample_create_ignores_count_mismatch :
    LinTensorManager.createFloat32Tensor [1, 2] [1] LinTensorManager.initState
      = ("tensor_1",
        ⟨[("tensor_1", ⟨.float, [1, 2], [1]⟩)], [("tensor_1", "float32")],
          [("tensor_1", [1])], 2⟩) ∧
    ((2 : Nat) ≠ OrtValueFfi.totalElements [1]) := by
  exact ⟨by rfl, by decide⟩

/-- Claim C6 (amended): only the legacy linux `createOrtValue` float32 path
validates the payload length against the shape product — after first
rejecting an empty shape with `INVALID_SHAPE` — answering `SHAPE_MISMATCH`
(and registering nothing) on disagreement and registering the tensor on
agreement.  The `TensorManager::createFloat32Tensor` path never compares
the counts: any payload covering the shape product registers, in
particular every payload with strictly *more* elements than the shape
requires; its only failure is the library buffer check (negative dimension
or payload shorter than the shape product), which yields the empty id with
nothing registered and no `ShapeMismatch`-like error — only the id counter
advances. -/
theorem C6_amended_only_legacy_path_validates :
    ∀ (g : OrtValueFfi.Globals) (s : LinTensorManager.State)
      (data : List ℚ) (shape : List Int),
      (shape = [] →
        OrtValueFfi.legacyCreateOrtValueFloat32 data shape g
          = .error "INVALID_SHAPE") ∧
      (shape ≠ [] → data.length ≠ OrtValueFfi.totalElements shape →
        OrtValueFfi.legacyCreateOrtValueFloat32 data shape g
          = .error "SHAPE_MISMATCH") ∧
      (shape ≠ [] → data.length = OrtValueFfi.totalElements shape →
        OrtValueFfi.legacyCreateOrtValueFloat32 data shape g
          = .ok ("tensor_" ++ toString g.counter,
            ⟨aset g.g_ort_values ("tensor_" ++ toString g.counter)
              ⟨.float, data, shape⟩, g.counter + 1⟩)) ∧
      ((∀ d ∈ shape, 0 ≤ d) →
        LinTensorManager.ortShapeProduct shape ≤ (data.length : Int) →
        aget (LinTensorManager.createFloat32Tensor data shape s).2.tensors
            (LinTensorManager.createFloat32Tensor data shape s).1
          = some ⟨.float, data, shape⟩) ∧
      (¬ ((∀ d ∈ shape, 0 ≤ d) ∧
          LinTensorManager.ortShapeProduct shape ≤ (data.length : Int)) →
        LinTensorManager.createFloat32Tensor data shape s
          = ("", { s with next_tensor_id := s.next_tensor_id + 1 })) := by
  intro g s data shape
  refine ⟨?_, ?_, ?_, ?_, ?_⟩
  · intro hempty
    subst hempty
    rfl
  · intro hne0 hne
    unfold OrtValueFfi.legacyCreateOrtValueFloat32
    rw [if_neg (by simpa using hne0), if_pos hne]
  · intro hne0 heq
    unfold OrtValueFfi.legacyCreateOrtValueFloat32
    rw [if_neg (by simpa using hne0), if_neg (by simp [heq])]
    rfl
  · intro hnn hcov
    show aget (LinTensorManager.createTensorCore .float "float32"
        data shape s).2.tensors
      (LinTensorManager.createTensorCore .float "float32" data shape s).1
      = some ⟨.float, data, shape⟩
    unfold LinTensorManager.createTensorCore LinTensorManager.generateTensorId
    dsimp only
    rw [if_pos ⟨hnn, hcov⟩]
    simp [aget_aset]
  · intro hfail
    show LinTensorManager.createTensorCore .float "float32" data shape s
      = ("", { s with next_tensor_id := s.next_tensor_id + 1 })
    unfold LinTensorManager.createTensorCore LinTensorManager.generateTensorId
    dsimp only
    rw [if_neg hfail]

/-- Witness for C6: the legacy path rejects the short payload `[]` against
shape `[2]`; the `TensorManager` path registers the oversized payload
`[1, 2]` against shape `[1]` (counts disagree, product covered) and
returns the empty id for the short payload `[1]` against shape `[2]`
(product not covered, nothing registered). -/
theorem C6_amended_witness :
    (OrtValueFfi.legacyCreateOrtValueFloat32 [] [2] OrtValueFfi.initGlobals
      = .error "SHAPE_MISMATCH") ∧
    (aget (LinTensorManager.createFloat32Tensor [1, 2] [1]
          LinTensorManager.initState).2.tensors
        (LinTensorManager.createFloat32Tensor [1, 2] [1]
          LinTensorManager.initState).1
      = some ⟨.float, [1, 2], [1]⟩) ∧
    (LinTensorManager.createFloat32Tensor [1] [2]
        LinTensorManager.initState
      = ("", { LinTensorManager.initState with next_tensor_id := 2 })) :=
  ⟨(C6_amended_only_legacy_path_validates OrtValueFfi.initGlobals
      LinTensorManager.initState [] [2]).2.1 (by decide) (by decide),
   (C6_amended_only_legacy_path_validates OrtValueFfi.initGlobals
      LinTensorManager.initState [1, 2] [1]).2.2.2.1 (by decide) (by decide),
   (C6_amended_only_legacy_path_validates OrtValueFfi.initGlobals
      LinTensorManager.initState [1] [2]).2.2.2.2 (by decide)⟩

/-- Claim C9 counterexample: store a tensor of element type `double` (as the
inference-output path does) and convert it to its own type: the same-type
clone path records a type tag and a shape under the fresh handle but no
tensor, so the three maps are no longer keyed by the same handles. -/
theorem C9_counterexample_same_type_convert_desyncs_maps :
    (WinTensorManager.convertTensor "tensor_0" "double" "tensor_1" c9State).map
        (fun r => (aget r.2.tensors "tensor_1",
          aget r.2.tensor_types "tensor_1",
          aget r.2.tensor_shapes "tensor_1"))
      = .ok (none, some "double", some [1]) := by
  rfl


/-- Inserting a tensor together with a matching type tag and its own shape
into all maps preserves the registry invariant. -/
theorem consistent_insert (s : WinTensorManager.State) (hc : Consistent s)
    (ty : OnnxElementType) (tyStr : String) (d : List ℚ) (sh : List Int)
    (bufs : List (String × List ℚ)) (id : String)
    (hty : tyStr = get_element_type_string ty) :
    Consistent ⟨aset s.tensors id ⟨ty, d, sh⟩, aset s.tensor_types id tyStr,
      aset s.tensor_shapes id sh, bufs⟩ := by
  intro k
  rcases hc k with ⟨h1, h2, h3, h4⟩
  by_cases hk : k = id
  · subst hk
    refine ⟨by simp [aget_aset], by simp [aget_aset], ?_, ?_⟩
    · intro t ty2 h5 h6
      rw [aget_aset, if_pos rfl] at h5 h6
      cases h5
      cases h6
      exact hty
    · intro t sh2 h5 h6
      rw [aget_aset, if_pos rfl] at h5 h6
      cases h5
      cases h6
      rfl
  · refine ⟨?_, ?_, ?_, ?_⟩ <;>
      simp only [WinTensorManager.State.tensors, WinTensorManager.State.tensor_types,
        WinTensorManager.State.tensor_shapes, aget_aset, if_neg hk]
    · exact h1
    · exact h2
    · exact h3
    · exact h4

/-- Erasing a handle from the three maps preserves the registry invariant. -/
theorem consistent_erase (s : WinTensorManager.State) (hc : Consistent s)
    (bufs : List (String × List ℚ)) (id : String) :
    Consistent ⟨aerase s.tensors id, aerase s.tensor_types id,
      aerase s.tensor_shapes id, bufs⟩ := by
  intro k
  rcases hc k with ⟨h1, h2, h3, h4⟩
  by_cases hk : k = id
  · subst hk
    refine ⟨by simp [aget_aerase], by simp [aget_aerase], ?_, ?_⟩ <;>
      · intro t x h5 h6
        rw [aget_aerase, if_pos rfl] at h5
        cases h5
  · refine ⟨?_, ?_, ?_, ?_⟩ <;>
      simp only [WinTensorManager.State.tensors, WinTensorManager.State.tensor_types,
        WinTensorManager.State.tensor_shapes, aget_aerase, if_neg hk]
    · exact h1
    · exact h2
    · exact h3
    · exact h4

/-- On the windows manager: every create, store and release preserves the
registry invariant, and `convertTensor` preserves it whenever the source
tensor's tag is one of the five convertible types or differs from the
target. -/
theorem win_ops_preserve_consistency :
    ∀ s : WinTensorManager.State, Consistent s →
      (∀ data shape newId,
        Consistent (WinTensorManager.createFloat32Tensor data shape newId s).2 ∧
        Consistent (WinTensorManager.createInt32Tensor data shape newId s).2 ∧
        Consistent (WinTensorManager.createInt64Tensor data shape newId s).2 ∧
        Consistent (WinTensorManager.createUint8Tensor data shape newId s).2 ∧
        Consistent (WinTensorManager.createBoolTensor data shape newId s).2) ∧
      (∀ id t, Consistent (WinTensorManager.storeTensor id t s)) ∧
      (∀ id, Consistent (WinTensorManager.releaseTensor id s).2) ∧
      (∀ id target newId rid s2,
        (∀ ty, aget s.tensor_types id = some ty →
          ty = "float32" ∨ ty = "int32" ∨ ty = "int64" ∨ ty = "uint8" ∨
          ty = "bool" ∨ ty ≠ target) →
        WinTensorManager.convertTensor id target newId s = .ok (rid, s2) →
        Consistent s2) := by
  intro s hc
  refine ⟨?_, ?_, ?_, ?_⟩
  · intro data shape newId
    exact ⟨consistent_insert s hc _ _ _ _ _ _ rfl,
      consistent_insert s hc _ _ _ _ _ _ rfl,
      consistent_insert s hc _ _ _ _ _ _ rfl,
      consistent_insert s hc _ _ _ _ _ _ rfl,
      consistent_insert s hc _ _ _ _ _ _ rfl⟩
  · intro id t
    exact consistent_insert s hc t.etype _ t.data t.shape s.tensor_data_buffers id rfl
  · intro id
    unfold WinTensorManager.releaseTensor
    cases ht : aget s.tensors id with
    | none => exact hc
    | some t => exact consistent_erase s hc _ id
  · intro id target newId rid s2 hcore hok
    unfold WinTensorManager.convertTensor at hok
    cases ht : aget s.tensors id with
    | none => rw [ht] at hok; cases hok
    | some t =>
    cases hty : aget s.tensor_types id with
    | none => rw [ht, hty] at hok; cases hok
    | some srcTy =>
    cases hsh : aget s.tensor_shapes id with
    | none => rw [ht, hty, hsh] at hok; cases hok
    | some sh0 =>
    rw [ht, hty, hsh] at hok
    dsimp only at hok
    have htag : srcTy = get_element_type_string t.etype :=
      (hc id).2.2.1 t srcTy ht hty
    by_cases hsame : srcTy = target
    · rw [if_pos hsame] at hok
      rw [Except.ok.injEq, Prod.mk.injEq] at hok
      obtain ⟨-, rfl⟩ := hok
      rcases hcore srcTy hty with h5 | h5 | h5 | h5 | h5 | h5
      · subst h5
        exact consistent_insert s hc .float "float32" t.data t.shape _ newId rfl
      · subst h5
        exact consistent_insert s hc .int32 "int32" t.data t.shape _ newId rfl
      · subst h5
        exact consistent_insert s hc .int64 "int64" t.data t.shape _ newId rfl
      · subst h5
        exact consistent_insert s hc .uint8 "uint8" t.data t.shape _ newId rfl
      · subst h5
        exact consistent_insert s hc .bool "bool" t.data t.shape _ newId rfl
      · exact absurd hsame h5
    · rw [if_neg hsame] at hok
      by_cases h1 : srcTy = "float32"
      · rw [if_pos h1] at hok
        unfold WinTensorManager.convertFloat32To at hok
        rw [ht] at hok
        dsimp only at hok
        split_ifs at hok <;>
          first
          | (exact Except.noConfusion hok)
          | (rw [Except.ok.injEq, Prod.mk.injEq] at hok
             obtain ⟨-, rfl⟩ := hok
             unfold WinTensorManager.registerConverted
             refine consistent_insert s hc _ _ _ _ _ _ ?_
             rfl)
      · rw [if_neg h1] at hok
        by_cases h2 : srcTy = "int32"
        · rw [if_pos h2] at hok
          unfold WinTensorManager.convertInt32To at hok
          rw [ht] at hok
          dsimp only at hok
          split_ifs at hok <;>
            first
            | (exact Except.noConfusion hok)
            | (rw [Except.ok.injEq, Prod.mk.injEq] at hok
               obtain ⟨-, rfl⟩ := hok
               unfold WinTensorManager.registerConverted
               refine consistent_insert s hc _ _ _ _ _ _ ?_
               rfl)
        · rw [if_neg h2] at hok
          by_cases h3 : srcTy = "int64"
          · rw [if_pos h3] at hok
            unfold WinTensorManager.convertInt64To at hok
            rw [ht] at hok
            dsimp only at hok
            split_ifs at hok <;>
              first
              | (exact Except.noConfusion hok)
              | (rw [Except.ok.injEq, Prod.mk.injEq] at hok
                 obtain ⟨-, rfl⟩ := hok
                 unfold WinTensorManager.registerConverted
                 refine consistent_insert s hc _ _ _ _ _ _ ?_
                 rfl)
          · rw [if_neg h3] at hok
            by_cases h4 : srcTy = "uint8"
            · rw [if_pos h4] at hok
              unfold WinTensorManager.convertUint8To at hok
              rw [ht] at hok
              dsimp only at hok
              split_ifs at hok <;>
                first
                | (exact Except.noConfusion hok)
                | (rw [Except.ok.injEq, Prod.mk.injEq] at hok
                   obtain ⟨-, rfl⟩ := hok
                   unfold WinTensorManager.registerConverted
                   refine consistent_insert s hc _ _ _ _ _ _ ?_
                   rfl)
            · rw [if_neg h4] at hok
              by_cases h5 : srcTy = "bool"
              · rw [if_pos h5] at hok
                unfold WinTensorManager.convertBoolTo at hok
                rw [ht] at hok
                dsimp only at hok
                split_ifs at hok <;>
                  first
                  | (exact Except.noConfusion hok)
                  | (rw [Except.ok.injEq, Prod.mk.injEq] at hok
                     obtain ⟨-, rfl⟩ := hok
                     unfold WinTensorManager.registerConverted
                     refine consistent_insert s hc _ _ _ _ _ _ ?_
                     rfl)
              · rw [if_neg h5] at hok
                cases hok

/-- Inserting a tensor together with a matching type tag and its own shape
into all three linux maps preserves the registry invariant (for any value
of the id counter). -/
theorem lin_consistent_insert (s : LinTensorManager.State)
    (hc : LinConsistent s) (ty : OnnxElementType) (tyStr : String)
    (d : List ℚ) (sh : List Int) (n : Nat) (id : String)
    (hty : tyStr = get_element_type_string ty) :
    LinConsistent ⟨aset s.tensors id ⟨ty, d, sh⟩,
      aset s.tensor_types id tyStr, aset s.tensor_shapes id sh, n⟩ := by
  intro k
  rcases hc k with ⟨h1, h2, h3, h4⟩
  by_cases hk : k = id
  · subst hk
    refine ⟨by simp [aget_aset], by simp [aget_aset], ?_, ?_⟩
    · intro t ty2 h5 h6
      rw [aget_aset, if_pos rfl] at h5 h6
      cases h5
      cases h6
      exact hty
    · intro t sh2 h5 h6
      rw [aget_aset, if_pos rfl] at h5 h6
      cases h5
      cases h6
      rfl
  · refine ⟨?_, ?_, ?_, ?_⟩ <;>
      simp only [LinTensorManager.State.tensors,
        LinTensorManager.State.tensor_types,
        LinTensorManager.State.tensor_shapes, aget_aset, if_neg hk]
    · exact h1
    · exact h2
    · exact h3
    · exact h4

/-- Erasing a handle from the three linux maps preserves the registry
invariant (for any value of the id counter). -/
theorem lin_consistent_erase (s : LinTensorManager.State)
    (hc : LinConsistent s) (n : Nat) (id : String) :
    LinConsistent ⟨aerase s.tensors id, aerase s.tensor_types id,
      aerase s.tensor_shapes id, n⟩ := by
  intro k
  rcases hc k with ⟨h1, h2, h3, h4⟩
  by_cases hk : k = id
  · subst hk
    refine ⟨by simp [aget_aerase], by simp [aget_aerase], ?_, ?_⟩ <;>
      · intro t x h5 h6
        rw [aget_aerase, if_pos rfl] at h5
        cases h5
  · refine ⟨?_, ?_, ?_, ?_⟩ <;>
      simp only [LinTensorManager.State.tensors,
        LinTensorManager.State.tensor_types,
        LinTensorManager.State.tensor_shapes, aget_aerase, if_neg hk]
    · exact h1
    · exact h2
    · exact h3
    · exact h4

/-- A linux `create*Tensor` preserves the registry invariant: the failure
branch only advances the id counter, and the success branch inserts a
tensor with a matching tag and its own shape into all three maps. -/
theorem lin_consistent_create (s : LinTensorManager.State)
    (hc : LinConsistent s) (ty : OnnxElementType) (tyStr : String)
    (data : List ℚ) (shape : List Int)
    (hty : tyStr = get_element_type_string ty) :
    LinConsistent
      (LinTensorManager.createTensorCore ty tyStr data shape s).2 := by
  unfold LinTensorManager.createTensorCore LinTensorManager.generateTensorId
  dsimp only
  split_ifs with h
  · exact lin_consistent_insert s hc ty tyStr data shape _ _ hty
  · exact fun k => hc k

/-- On the linux manager: every create, store and release preserves the
registry invariant. -/
theorem lin_ops_preserve_consistency :
    ∀ ls : LinTensorManager.State, LinConsistent ls →
      (∀ data shape,
        LinConsistent (LinTensorManager.createFloat32Tensor data shape ls).2 ∧
        LinConsistent (LinTensorManager.createInt32Tensor data shape ls).2 ∧
        LinConsistent (LinTensorManager.createInt64Tensor data shape ls).2 ∧
        LinConsistent (LinTensorManager.createUint8Tensor data shape ls).2 ∧
        LinConsistent (LinTensorManager.createBoolTensor data shape ls).2) ∧
      (∀ id t, LinConsistent (LinTensorManager.storeTensor id t ls)) ∧
      (∀ id, LinConsistent (LinTensorManager.releaseTensor id ls).2) := by
  intro ls hc
  refine ⟨?_, ?_, ?_⟩
  · intro data shape
    exact ⟨lin_consistent_create ls hc _ _ _ _ rfl,
      lin_consistent_create ls hc _ _ _ _ rfl,
      lin_consistent_create ls hc _ _ _ _ rfl,
      lin_consistent_create ls hc _ _ _ _ rfl,
      lin_consistent_create ls hc _ _ _ _ rfl⟩
  · intro id t
    exact lin_consistent_insert ls hc t.etype _ t.data t.shape
      ls.next_tensor_id id rfl
  · intro id
    unfold LinTensorManager.releaseTensor
    cases ht : aget ls.tensors id with
    | none => exact hc
    | some t => exact lin_consistent_erase ls hc ls.next_tensor_id id

/-- Claim C9 (amended): on the windows manager every create, store and
release preserves the invariant that the three registry maps share one key
set with tag and shape agreeing with the stored tensor, and `convertTensor`
preserves it whenever the source tensor's tag is one of the five
convertible types or differs from the target (the clone path applied to
another stored type — see the counterexample — is the one escape); on the
linux manager every create, store and release preserves the same
invariant. -/
theorem C9_amended_operations_preserve_consistency :
    (∀ s : WinTensorManager.State, Consistent s →
      (∀ data shape newId,
        Consistent (WinTensorManager.createFloat32Tensor data shape newId s).2 ∧
        Consistent (WinTensorManager.createInt32Tensor data shape newId s).2 ∧
        Consistent (WinTensorManager.createInt64Tensor data shape newId s).2 ∧
        Consistent (WinTensorManager.createUint8Tensor data shape newId s).2 ∧
        Consistent (WinTensorManager.createBoolTensor data shape newId s).2) ∧
      (∀ id t, Consistent (WinTensorManager.storeTensor id t s)) ∧
      (∀ id, Consistent (WinTensorManager.releaseTensor id s).2) ∧
      (∀ id target newId rid s2,
        (∀ ty, aget s.tensor_types id = some ty →
          ty = "float32" ∨ ty = "int32" ∨ ty = "int64" ∨ ty = "uint8" ∨
          ty = "bool" ∨ ty ≠ target) →
        WinTensorManager.convertTensor id target newId s = .ok (rid, s2) →
        Consistent s2)) ∧
    (∀ ls : LinTensorManager.State, LinConsistent ls →
      (∀ data shape,
        LinConsistent (LinTensorManager.createFloat32Tensor data shape ls).2 ∧
        LinConsistent (LinTensorManager.createInt32Tensor data shape ls).2 ∧
        LinConsistent (LinTensorManager.createInt64Tensor data shape ls).2 ∧
        LinConsistent (LinTensorManager.createUint8Tensor data shape ls).2 ∧
        LinConsistent (LinTensorManager.createBoolTensor data shape ls).2) ∧
      (∀ id t, LinConsistent (LinTensorManager.storeTensor id t ls)) ∧
      (∀ id, LinConsistent (LinTensorManager.releaseTensor id ls).2)) :=
  ⟨win_ops_preserve_consistency, lin_ops_preserve_consistency⟩

/-- Witness for C9: storing a float tensor into the fresh (trivially
consistent) registry keeps it consistent, on each manager. -/
theorem C9_amended_witness :
    Consistent (WinTensorManager.storeTensor "tensor_0" ⟨.float, [1], [1]⟩
      WinTensorManager.initState) ∧
    LinConsistent (LinTensorManager.storeTensor "tensor_0"
      ⟨.float, [1], [1]⟩ LinTensorManager.initState) :=
  ⟨(C9_amended_operations_preserve_consistency.1 WinTensorManager.initState
      (by intro k; simp [aget, WinTensorManager.initState])).2.1 "tensor_0"
      ⟨.float, [1], [1]⟩,
   (C9_amended_operations_preserve_consistency.2 LinTensorManager.initState
      (by intro k; simp [aget, LinTensorManager.initState])).2.1 "tensor_0"
      ⟨.float, [1], [1]⟩⟩


/-- Field extraction from an assembled binary16 pattern. -/
theorem half_bits_extract (s e m : Nat) (hs : s ≤ 1) (he : e < 32)
    (hm : m < 2 ^ 10) :
    (s * 2 ^ 15 + e * 2 ^ 10 + m) / 2 ^ 15 % 2 = s ∧
    (s * 2 ^ 15 + e * 2 ^ 10 + m) / 2 ^ 10 % 2 ^ 5 = e ∧
    (s * 2 ^ 15 + e * 2 ^ 10 + m) % 2 ^ 10 = m := by
  refine ⟨?_, ?_, ?_⟩ <;> omega

/-- Field extraction from an assembled binary32 pattern. -/
theorem f32_bits_extract (s e m : Nat) (hs : s ≤ 1) (he : e < 256)
    (hm : m < 2 ^ 23) :
    (s * 2 ^ 31 + e * 2 ^ 23 + m) / 2 ^ 31 % 2 = s ∧
    (s * 2 ^ 31 + e * 2 ^ 23 + m) / 2 ^ 23 % 2 ^ 8 = e ∧
    (s * 2 ^ 31 + e * 2 ^ 23 + m) % 2 ^ 23 = m := by
  refine ⟨?_, ?_, ?_⟩ <;> omega

/-- Claim C2 counterexample: `floatToFloat16` does not round to nearest.
At the float32 pattern of `1 + 3·2^-12` it truncates to half `1.0`
(`0x3C00`) although `0x3C01` is strictly closer; and the finite overflowing
input `98304.0` (pattern `0x47C00000`) is mapped to the NaN pattern
`0x7E00`, not saturated to the infinity pattern `0x7C00`. -/
theorem C2_counterexample_truncation_and_nan :
    Float16Utils.floatToFloat16 0x3F801800 = 0x3C00 ∧
    |halfVal 0x3C01 - float32Val 0x3F801800|
      < |halfVal 0x3C00 - float32Val 0x3F801800| ∧
    float32Val 0x47C00000 = 98304 ∧
    Float16Utils.floatToFloat16 0x47C00000 = 0x7E00 ∧
    (0x7E00 : Nat) ≠ 0x7C00 := by
  refine ⟨by rfl, ?_, ?_, by rfl, by decide⟩
  · rw [show halfVal 0x3C01 - float32Val 0x3F801800 = 1 / 4096 by
        norm_num [halfVal, float32Val],
      show halfVal 0x3C00 - float32Val 0x3F801800 = -(3 / 4096) by
        norm_num [halfVal, float32Val],
      abs_of_nonneg (by norm_num), abs_neg, abs_of_nonneg (by norm_num)]
    norm_num
  · norm_num [float32Val]



/-- Evaluation of `halfVal` at an assembled normal binary16 pattern. -/
theorem halfVal_normal (s e m : Nat) (hs : s ≤ 1) (he1 : 1 ≤ e)
    (he2 : e ≤ 30) (hm : m < 2 ^ 10) :
    halfVal (s * 2 ^ 15 + e * 2 ^ 10 + m)
      = (if s = 1 then (-1 : ℚ) else 1)
        * ((1 + (m : ℚ) / 2 ^ 10) * (2 : ℚ) ^ ((e : ℤ) - 15)) := by
  have hext := half_bits_extract s e m hs (by omega) hm
  simp only [halfVal]
  rw [hext.1, hext.2.1, hext.2.2, if_neg (by omega : ¬ e = 0),
    if_neg (by omega : ¬ e = 31)]

/-- Evaluation of `halfVal` at a signed-zero binary16 pattern: zero. -/
theorem halfVal_signed_zero (s : Nat) (hs : s ≤ 1) :
    halfVal (s * 2 ^ 15) = 0 := by
  simp only [halfVal]
  have h1 : s * 2 ^ 15 / 2 ^ 10 % 2 ^ 5 = 0 := by omega
  have h2 : s * 2 ^ 15 % 2 ^ 10 = 0 := by omega
  rw [h1, h2, if_pos rfl]
  simp

/-- Evaluation of `halfVal` at an assembled denormal binary16 pattern. -/
theorem halfVal_denormal (s m : Nat) (hs : s ≤ 1) (hm : m < 2 ^ 10) :
    halfVal (s * 2 ^ 15 + m)
      = (if s = 1 then (-1 : ℚ) else 1)
        * ((m : ℚ) / 2 ^ 10 * (2 : ℚ) ^ (-14 : ℤ)) := by
  simp only [halfVal]
  have h1 : (s * 2 ^ 15 + m) / 2 ^ 15 % 2 = s := by omega
  have h2 : (s * 2 ^ 15 + m) / 2 ^ 10 % 2 ^ 5 = 0 := by omega
  have h3 : (s * 2 ^ 15 + m) % 2 ^ 10 = m := by omega
  rw [h1, h2, h3, if_pos rfl]

/-- Evaluation of `float32Val` at an assembled normal binary32 pattern. -/
theorem float32Val_normal (s e m : Nat) (hs : s ≤ 1) (he1 : 1 ≤ e)
    (he2 : e ≤ 254) (hm : m < 2 ^ 23) :
    float32Val (s * 2 ^ 31 + e * 2 ^ 23 + m)
      = (if s = 1 then (-1 : ℚ) else 1)
        * ((1 + (m : ℚ) / 2 ^ 23) * (2 : ℚ) ^ ((e : ℤ) - 127)) := by
  have hext := f32_bits_extract s e m hs (by omega) hm
  simp only [float32Val]
  rw [hext.1, hext.2.1, hext.2.2, if_neg (by omega : ¬ e = 0),
    if_neg (by omega : ¬ e = 255)]

/-- Evaluation of `float32Val` at a raw pattern with a normal exponent field. -/
theorem float32Val_eval (b : Nat) (he1 : 1 ≤ b / 2 ^ 23 % 2 ^ 8)
    (he2 : b / 2 ^ 23 % 2 ^ 8 ≤ 254) :
    float32Val b
      = (if b / 2 ^ 31 % 2 = 1 then (-1 : ℚ) else 1)
        * ((1 + ((b % 2 ^ 23 : Nat) : ℚ) / 2 ^ 23)
          * (2 : ℚ) ^ (((b / 2 ^ 23 % 2 ^ 8 : Nat) : ℤ) - 127)) := by
  simp only [float32Val]
  rw [if_neg (by omega : ¬ b / 2 ^ 23 % 2 ^ 8 = 0),
    if_neg (by omega : ¬ b / 2 ^ 23 % 2 ^ 8 = 255)]

/-- Claim C2 (amended): `floatToFloat16` truncates the 23-bit mantissa to
10 bits (round toward zero) after rebiasing the exponent from 127 to 15:
for in-range inputs the output has the input's sign and its magnitude lies
within one output-ulp below the input's magnitude (truncation toward zero);
a rebiased exponent at or below zero flushes to a signed zero; a rebiased
exponent of 31 or more yields the infinity pattern only when the source
mantissa is zero and the NaN pattern `0x7E00` otherwise — finite
overflowing inputs with nonzero mantissa become NaN, not infinity. -/
theorem C2_amended_truncating_conversion :
    ∀ b : Nat,
      ((f32exp b : ℤ) - 112 ≤ 0 →
        Float16Utils.floatToFloat16 b = f32sign b * 2 ^ 15 ∧
        halfVal (Float16Utils.floatToFloat16 b) = 0) ∧
      (31 ≤ (f32exp b : ℤ) - 112 → f32mant b = 0 →
        Float16Utils.floatToFloat16 b = f32sign b * 2 ^ 15 + 0x7C00) ∧
      (31 ≤ (f32exp b : ℤ) - 112 → f32mant b ≠ 0 →
        Float16Utils.floatToFloat16 b = f32sign b * 2 ^ 15 + 0x7E00) ∧
      (1 ≤ (f32exp b : ℤ) - 112 → (f32exp b : ℤ) - 112 ≤ 30 →
        (if f32sign b = 1 then (-1 : ℚ) else 1) *
            halfVal (Float16Utils.floatToFloat16 b)
          ≤ (if f32sign b = 1 then (-1 : ℚ) else 1) * float32Val b ∧
        (if f32sign b = 1 then (-1 : ℚ) else 1) * float32Val b
          < (if f32sign b = 1 then (-1 : ℚ) else 1) *
              halfVal (Float16Utils.floatToFloat16 b)
            + (2 : ℚ) ^ ((f32exp b : ℤ) - 112 - 25)) := by
  intro b
  have hs : b / 2 ^ 31 % 2 ≤ 1 := Nat.le_of_lt_succ (Nat.mod_lt _ (by norm_num))
  have hE : b / 2 ^ 23 % 2 ^ 8 < 256 := Nat.mod_lt _ (by norm_num)
  have hm : b % 2 ^ 23 < 2 ^ 23 := Nat.mod_lt _ (by norm_num)
  have hexprw : ((b / 2 ^ 23 % 2 ^ 8 : Nat) : ℤ) - 127 + 15
      = (f32exp b : ℤ) - 112 := by
    unfold f32exp
    ring
  refine ⟨?_, ?_, ?_, ?_⟩
  · intro h0
    have hout : Float16Utils.floatToFloat16 b = f32sign b * 2 ^ 15 := by
      unfold Float16Utils.floatToFloat16
      rw [hexprw, if_pos h0]
      rfl
    refine ⟨hout, ?_⟩
    rw [hout]
    exact halfVal_signed_zero (f32sign b) hs
  · intro h31 hm0
    unfold Float16Utils.floatToFloat16
    rw [hexprw, if_neg (by omega), if_pos h31]
    unfold f32mant at hm0
    rw [if_pos hm0]
    rfl
  · intro h31 hm0
    unfold Float16Utils.floatToFloat16
    rw [hexprw, if_neg (by omega), if_pos h31]
    unfold f32mant at hm0
    rw [if_neg hm0]
    rfl
  · intro h1 h30
    have hout : Float16Utils.floatToFloat16 b
        = f32sign b * 2 ^ 15 + ((f32exp b : ℤ) - 112).toNat * 2 ^ 10
          + f32mant b / 2 ^ 13 := by
      unfold Float16Utils.floatToFloat16
      rw [hexprw, if_neg (by omega), if_neg (by omega)]
      rfl
    have hd : f32mant b / 2 ^ 13 < 2 ^ 10 := by
      have : f32mant b < 2 ^ 23 := hm
      omega
    have het : ((f32exp b : ℤ) - 112).toNat < 32 := by omega
    have hext := half_bits_extract (f32sign b) ((f32exp b : ℤ) - 112).toNat
      (f32mant b / 2 ^ 13) hs het hd
    have hhv : halfVal (Float16Utils.floatToFloat16 b)
        = (if f32sign b = 1 then (-1 : ℚ) else 1)
          * ((1 + ((f32mant b / 2 ^ 13 : Nat) : ℚ) / 2 ^ 10)
            * (2 : ℚ) ^ ((f32exp b : ℤ) - 112 - 15)) := by
      rw [hout, halfVal_normal (f32sign b) ((f32exp b : ℤ) - 112).toNat
        (f32mant b / 2 ^ 13) hs (by omega) (by omega) hd]
      rw [show ((((f32exp b : ℤ) - 112).toNat : ℤ)) = (f32exp b : ℤ) - 112 by
        omega]
    have hfv : float32Val b
        = (if f32sign b = 1 then (-1 : ℚ) else 1)
          * ((1 + (f32mant b : ℚ) / 2 ^ 23)
            * (2 : ℚ) ^ ((f32exp b : ℤ) - 112 - 15)) := by
      have heval := float32Val_eval b (by unfold f32exp at h1; omega)
        (by unfold f32exp at h30; omega)
      rw [heval, show (((b / 2 ^ 23 % 2 ^ 8 : Nat) : ℤ) - 127)
          = (f32exp b : ℤ) - 112 - 15 by unfold f32exp; ring]
      rfl
    have hsgn : (if f32sign b = 1 then (-1 : ℚ) else 1)
        * (if f32sign b = 1 then (-1 : ℚ) else 1) = 1 := by
      by_cases h : f32sign b = 1 <;> simp [h]
    have hP : (0 : ℚ) < (2 : ℚ) ^ ((f32exp b : ℤ) - 112 - 15) := by positivity
    have hq1 : ((f32mant b / 2 ^ 13 : Nat) : ℚ) * 2 ^ 13 ≤ (f32mant b : ℚ) := by
      exact_mod_cast Nat.div_mul_le_self (f32mant b) (2 ^ 13)
    have hq2n : f32mant b < (f32mant b / 2 ^ 13 + 1) * 2 ^ 13 := by omega
    have hq2 : (f32mant b : ℚ)
        < (((f32mant b / 2 ^ 13 : Nat) : ℚ) + 1) * 2 ^ 13 := by
      exact_mod_cast hq2n
    rw [hhv, hfv]
    rw [← mul_assoc, hsgn, one_mul, ← mul_assoc, hsgn, one_mul]
    have hsplit : (2 : ℚ) ^ ((f32exp b : ℤ) - 112 - 25)
        = (2 : ℚ) ^ ((f32exp b : ℤ) - 112 - 15) * (2 : ℚ) ^ (-10 : ℤ) := by
      rw [← zpow_add₀ (by norm_num : (2 : ℚ) ≠ 0)]
      ring_nf
    constructor
    · refine mul_le_mul_of_nonneg_right ?_ (le_of_lt hP)
      have : ((f32mant b / 2 ^ 13 : Nat) : ℚ) / 2 ^ 10 ≤ (f32mant b : ℚ) / 2 ^ 23 := by
        rw [div_le_div_iff (by norm_num) (by norm_num)]
        nlinarith [hq1]
      linarith
    · rw [hsplit, show (2 : ℚ) ^ (-10 : ℤ) = 1 / 1024 by norm_num]
      have hcoef : 1 + (f32mant b : ℚ) / 2 ^ 23
          < 1 + ((f32mant b / 2 ^ 13 : Nat) : ℚ) / 2 ^ 10 + 1 / 1024 := by
        have : (f32mant b : ℚ) / 2 ^ 23
            < (((f32mant b / 2 ^ 13 : Nat) : ℚ) + 1) / 2 ^ 10 := by
          rw [div_lt_div_iff (by norm_num) (by norm_num)]
          nlinarith [hq2]
        have hln : (((f32mant b / 2 ^ 13 : Nat) : ℚ) + 1) / 2 ^ 10
            = ((f32mant b / 2 ^ 13 : Nat) : ℚ) / 2 ^ 10 + 1 / 1024 := by
          ring
        linarith [hln ▸ this]
      calc (1 + (f32mant b : ℚ) / 2 ^ 23)
          * (2 : ℚ) ^ ((f32exp b : ℤ) - 112 - 15)
          < (1 + ((f32mant b / 2 ^ 13 : Nat) : ℚ) / 2 ^ 10 + 1 / 1024)
            * (2 : ℚ) ^ ((f32exp b : ℤ) - 112 - 15) :=
            mul_lt_mul_of_pos_right hcoef hP
        _ = (1 + ((f32mant b / 2 ^ 13 : Nat) : ℚ) / 2 ^ 10)
            * (2 : ℚ) ^ ((f32exp b : ℤ) - 112 - 15)
            + (2 : ℚ) ^ ((f32exp b : ℤ) - 112 - 15) * (1 / 1024) := by ring

/-- Witness for C2 at the pattern of `1 + 3·2^-12` (in range, sign 0). -/
theorem C2_amended_witness :
    (if f32sign 0x3F801800 = 1 then (-1 : ℚ) else 1) *
        halfVal (Float16Utils.floatToFloat16 0x3F801800)
      ≤ (if f32sign 0x3F801800 = 1 then (-1 : ℚ) else 1)
        * float32Val 0x3F801800 :=
  ((C2_amended_truncating_conversion 0x3F801800).2.2.2 (by decide)
    (by decide)).1


/-- The renormalization loop multiplies the mantissa by a power of two until
bit 10 is set, incrementing the exponent counter in step. -/
theorem normLoop_spec :
    ∀ (fuel m e : Nat), 0 < m → m < 2 ^ 11 → 2 ^ 10 ≤ m * 2 ^ fuel →
      ∃ t, t ≤ fuel ∧ Float16Utils.normLoop fuel m e = (m * 2 ^ t, e + t) ∧
        2 ^ 10 ≤ m * 2 ^ t ∧ m * 2 ^ t < 2 ^ 11 := by
  intro fuel
  induction fuel with
  | zero =>
    intro m e h1 h2 h3
    refine ⟨0, le_refl 0, by simp [Float16Utils.normLoop], by simpa using h3,
      by simpa using h2⟩
  | succ n ih =>
    intro m e h1 h2 h3
    by_cases hbit : m / 2 ^ 10 % 2 = 0
    · have hm' : m < 2 ^ 10 := by omega
      obtain ⟨t, ht, heq, hb1, hb2⟩ := ih (m * 2) (e + 1) (by omega) (by omega)
        (le_of_le_of_eq h3 (by ring))
      refine ⟨t + 1, by omega, ?_, ?_, ?_⟩
      · unfold Float16Utils.normLoop
        rw [if_pos hbit, heq, show m * 2 * 2 ^ t = m * 2 ^ (t + 1) by ring,
          show e + 1 + t = e + (t + 1) by omega]
      · rw [show m * 2 ^ (t + 1) = m * 2 * 2 ^ t by ring]
        exact hb1
      · rw [show m * 2 ^ (t + 1) = m * 2 * 2 ^ t by ring]
        exact hb2
    · have hset : 2 ^ 10 ≤ m := by omega
      refine ⟨0, Nat.zero_le _, ?_, by simpa using hset, by simpa using h2⟩
      unfold Float16Utils.normLoop
      rw [if_neg hbit]
      simp

/-- Claim C5 (code bug): widening a denormal Float16 (exponent field zero,
mantissa `m ≠ 0`) through `float16ToFloat` produces exactly HALF the
denormal's value — `m × 2^-25` instead of the exact `m × 2^-24` — because
the loop counter `e` starts at 1 while `normalizedExponent = exponent - e + 1`
already accounts for that shift, an off-by-one in the rebias. -/
theorem C5_denormal_widening_halves_value :
    ∀ s m : Nat, s ≤ 1 → 1 ≤ m → m < 2 ^ 10 →
      float32Val (Float16Utils.float16ToFloat (s * 2 ^ 15 + m))
        = halfVal (s * 2 ^ 15 + m) / 2 ∧
      halfVal (s * 2 ^ 15 + m) ≠ 0 := by
  intro s m hs hm1 hm2
  have hf1 : (s * 2 ^ 15 + m) / 2 ^ 15 % 2 = s := by omega
  have hf2 : (s * 2 ^ 15 + m) / 2 ^ 10 % 2 ^ 5 = 0 := by omega
  have hf3 : (s * 2 ^ 15 + m) % 2 ^ 10 = m := by omega
  obtain ⟨t, ht16, heq, hb1, hb2⟩ := normLoop_spec 16 m 1 (by omega) (by omega)
    (by omega)
  have ht1 : 1 ≤ t := by
    rcases Nat.eq_zero_or_pos t with h0 | h0
    · subst h0
      simp only [pow_zero, Nat.mul_one] at hb1
      omega
    · exact h0
  have ht10 : t ≤ 10 := by
    have h2t : 2 ^ t < 2 ^ 11 :=
      lt_of_le_of_lt (Nat.le_mul_of_pos_left _ (by omega)) hb2
    have := (Nat.pow_lt_pow_iff_right (by norm_num : 1 < 2)).mp h2t
    omega
  have hMb1 : 2 ^ 10 ≤ m * 2 ^ t := hb1
  have hMb2 : m * 2 ^ t < 2 ^ 11 := hb2
  have hcalc : Float16Utils.float16ToFloat (s * 2 ^ 15 + m)
      = s * 2 ^ 31 + (112 - t) * 2 ^ 23 + (m * 2 ^ t - 2 ^ 10) * 2 ^ 13 := by
    simp only [Float16Utils.float16ToFloat]
    rw [hf1, hf2, hf3, if_pos rfl, if_neg (by omega : ¬ m = 0), heq]
    dsimp only
    rw [show (((1 : ℤ) - ((1 + t : Nat) : ℤ)) % (2 ^ 32 : ℤ)).toNat
        = 2 ^ 32 - t by omega]
    rw [show (2 ^ 32 - t + 112) % 2 ^ 32 % 2 ^ 9 = 112 - t by omega]
    rw [show m * 2 ^ t % 2 ^ 10 = m * 2 ^ t - 2 ^ 10 by omega]
  rw [hcalc, float32Val_normal s (112 - t) ((m * 2 ^ t - 2 ^ 10) * 2 ^ 13) hs
      (by omega) (by omega) (by omega),
    halfVal_denormal s m hs hm2]
  have hfinal : (1 + (((m * 2 ^ t - 2 ^ 10) * 2 ^ 13 : Nat) : ℚ) / 2 ^ 23)
      * (2 : ℚ) ^ (((112 - t : Nat) : ℤ) - 127)
      = ((m : ℚ) / 2 ^ 10 * (2 : ℚ) ^ (-14 : ℤ)) / 2 := by
    rw [show (((112 - t : Nat) : ℤ) - 127) = -15 - (t : ℤ) by omega]
    have hz : (2 : ℚ) ^ (-15 - (t : ℤ))
        = ((2 : ℚ) ^ (t : ℕ))⁻¹ * (2 : ℚ) ^ (-15 : ℤ) := by
      rw [← zpow_natCast (2 : ℚ) t, ← zpow_neg,
        ← zpow_add₀ (by norm_num : (2 : ℚ) ≠ 0)]
      ring_nf
    rw [hz, show (2 : ℚ) ^ (-15 : ℤ) = 1 / 32768 by norm_num,
      show (2 : ℚ) ^ (-14 : ℤ) = 1 / 16384 by norm_num]
    have hTne : ((2 : ℚ) ^ (t : ℕ)) ≠ 0 := by positivity
    field_simp
    ring
  constructor
  · rw [hfinal]
    ring
  · have hmq : (0 : ℚ) < (m : ℚ) := by exact_mod_cast hm1
    have hpos : (0 : ℚ) < (m : ℚ) / 2 ^ 10 * (2 : ℚ) ^ (-14 : ℤ) := by
      positivity
    rcases Nat.le_one_iff_eq_zero_or_eq_one.mp hs with h0 | h1
    · rw [h0, if_neg (by norm_num)]
      simpa using ne_of_gt hpos
    · rw [h1, if_pos rfl]
      simpa using ne_of_lt (by linarith : (-1 : ℚ) * ((m : ℚ) / 2 ^ 10 * (2 : ℚ) ^ (-14 : ℤ)) < 0)

/-- Witness for C5 at the smallest positive denormal `0x0001`. -/
theorem C5_witness :
    float32Val (Float16Utils.float16ToFloat (0 * 2 ^ 15 + 1))
      = halfVal (0 * 2 ^ 15 + 1) / 2 :=
  (C5_denormal_widening_halves_value 0 1 (by decide) (by decide)
    (by decide)).1

end FlutterOnnx
